import Mathlib

/-!
Verification of the mastodon-openapi scripts.

The repository holds four standalone Python scripts: three generators that
emit a static OpenAPI 3.0.3 description of the Mastodon REST API
(`generate_sample_openapi.py`, `generate_comprehensive_openapi.py`, and the
docs-scraping `generate_openapi.py`) and a validator
(`validate_openapi.py`) that sanity-checks the emitted file.

This file embeds the scripts shallowly:

* `PyVal` models the universe of values produced by `yaml.safe_load` /
  `json.load` and manipulated by the scripts (None, bool, int, str, list,
  dict with string keys; the documents at hand use no floats and no
  non-string keys).
* Dictionary access, membership tests, `.get`, `len`, iteration and
  `set.update` are modelled with Python's semantics, a `TypeError` /
  `KeyError` / `AttributeError` being `Option.none`.
* The validator's `try` body is `validateBody`; an exception escaping to
  the trailing `except` handlers is `Option.none`, and
  `validate_openapi_spec` collapses it to the boolean the script returns.
* Each generator script is embedded in its own namespace with its
  dataclasses, its hardcoded tables and its `generate_openapi_spec`;
  library calls that the scripts merely wrap (network fetches, base64 and
  UTF-8 decoding, YAML frontmatter loading, `re` pattern matching) are
  parameters of the embedded functions.

String primitives are re-implemented over `List Char` so that every
definition evaluates inside the kernel.
-/

namespace MastodonOpenapi

/-! ## String primitives over `List Char` -/

/-- ASCII lower-casing of one character, as `str.lower` does on the ASCII
names appearing in the scripts. -/
def lowerChar (c : Char) : Char :=
  if c.toNat ≥ 65 ∧ c.toNat ≤ 90 then Char.ofNat (c.toNat + 32) else c

/-- ASCII upper-casing of one character, as `str.upper` does on the ASCII
method names appearing in the scripts. -/
def upperChar (c : Char) : Char :=
  if c.toNat ≥ 97 ∧ c.toNat ≤ 122 then Char.ofNat (c.toNat - 32) else c

/-- Python `s.lower()` for the ASCII strings the scripts handle. -/
def strLower (s : String) : String := ⟨s.data.map lowerChar⟩

/-- Python `s.upper()` for the ASCII strings the scripts handle. -/
def strUpper (s : String) : String := ⟨s.data.map upperChar⟩

/-- Whether `p` is a prefix of the second list. -/
def listPrefixOf : List Char → List Char → Bool
  | [], _ => true
  | _ :: _, [] => false
  | a :: as, b :: bs => a == b && listPrefixOf as bs

/-- Python `s.startswith(p)`. -/
def strStarts (s p : String) : Bool := listPrefixOf p.data s.data

/-- Python `s.endswith(p)`. -/
def strEnds (s p : String) : Bool := listPrefixOf p.data.reverse s.data.reverse

/-- Whether `needle` occurs as a contiguous run in the list. -/
def listInfix (needle : List Char) : List Char → Bool
  | [] => needle.isEmpty
  | c :: rest => listPrefixOf needle (c :: rest) || listInfix needle rest

/-- Python `sub in s` on strings: substring containment. -/
def strContains (s sub : String) : Bool := listInfix sub.data s.data

/-- Python `s.strip()` (whitespace from both ends). -/
def strStrip (s : String) : String :=
  ⟨((s.data.dropWhile Char.isWhitespace).reverse.dropWhile Char.isWhitespace).reverse⟩

/-- One splitting step of Python `s.split(sep)` for a non-empty separator:
the text before the first occurrence of `sep` and the text after it, or
`Option.none` when `sep` does not occur. -/
def findSub (sep : List Char) : List Char → Option (List Char × List Char)
  | [] => Option.none
  | c :: rest =>
      if listPrefixOf sep (c :: rest) then some ([], (c :: rest).drop sep.length)
      else
        match findSub sep rest with
        | some (pre, post) => some (c :: pre, post)
        | Option.none => Option.none

/-- Python `s.split(sep)` for a non-empty separator, on character lists.
The `fuel` argument only bounds the recursion; it is instantiated with the
list's length, which dominates the number of splitting steps. -/
def splitChars (sep : List Char) : List Char → Nat → List (List Char)
  | cs, 0 => [cs]
  | cs, fuel + 1 =>
      match findSub sep cs with
      | Option.none => [cs]
      | some (pre, post) => pre :: splitChars sep post fuel

/-- Python `s.split(sep)` for a non-empty separator. -/
def strSplit (s sep : String) : List String :=
  (splitChars sep.data s.data s.data.length).map fun cs => ⟨cs⟩

/-- Python `s.split(sep, 2)` for a non-empty separator: at most three
pieces, the remainder kept whole. -/
def strSplit2 (s sep : String) : List String :=
  match findSub sep.data s.data with
  | Option.none => [s]
  | some (a, r1) =>
      match findSub sep.data r1 with
      | Option.none => [⟨a⟩, ⟨r1⟩]
      | some (b, r2) => [⟨a⟩, ⟨b⟩, ⟨r2⟩]

/-- Python `s.replace(old, new)` for a non-empty `old`: split on `old` and
interpose `new`. -/
def strReplace (s old new : String) : String :=
  ⟨List.intercalate new.data (splitChars old.data s.data s.data.length)⟩

/-- `pathlib.Path(p).stem`: the final path component without its last
extension (a lone leading dot is kept). -/
def pathStem (p : String) : String :=
  let name := (strSplit p "/").getLastD ""
  match strSplit name "." with
  | [] => name
  | [_] => name
  | first :: rest =>
      if first == "" && rest.length == 1 then name
      else String.intercalate "." ((first :: rest).dropLast)

/-! ## The Python value universe and its operations -/

/-- A value as produced by `yaml.safe_load` / `json.load` and handled by
the scripts: `None`, booleans, integers, strings, lists and
string-keyed dictionaries (the documents at hand use no floats and no
non-string keys).  A dictionary is its ordered list of key/value pairs,
keys unique, as Python dicts preserve insertion order. -/
inductive PyVal where
  | none
  | bool (b : Bool)
  | int (n : Int)
  | str (s : String)
  | list (xs : List PyVal)
  | dict (xs : List (String × PyVal))
  deriving Repr

/-- Lookup in an ordered association list, as Python `d[k]` reads a dict. -/
def pyLookup (xs : List (String × PyVal)) (k : String) : Option PyVal :=
  match xs with
  | [] => Option.none
  | (k2, v) :: rest => if k2 == k then some v else pyLookup rest k

/-- Python `d[k] = v` on a dict: an existing key keeps its position, a new
key is appended at the end. -/
def dictInsert {α : Type} (xs : List (String × α)) (k : String) (v : α) :
    List (String × α) :=
  match xs with
  | [] => [(k, v)]
  | (k2, v2) :: rest =>
      if k2 == k then (k2, v) :: rest else (k2, v2) :: dictInsert rest k v

mutual

/-- Python `str(v)`; containers are rendered from the reprs of their
elements (the repr of a string is simplified to plain single quotes,
which is exact for the names the scripts interpolate). -/
def pyStrForm : PyVal → String
  | .none => "None"
  | .bool true => "True"
  | .bool false => "False"
  | .int n => toString n
  | .str s => s
  | .list xs => "[" ++ pyReprSeq xs ++ "]"
  | .dict xs => "\x7b" ++ pyReprPairs xs ++ "\x7d"

/-- Python `repr(v)`. -/
def pyRepr : PyVal → String
  | .none => "None"
  | .bool true => "True"
  | .bool false => "False"
  | .int n => toString n
  | .str s => "'" ++ s ++ "'"
  | .list xs => "[" ++ pyReprSeq xs ++ "]"
  | .dict xs => "\x7b" ++ pyReprPairs xs ++ "\x7d"

/-- Comma-separated reprs of a list's elements. -/
def pyReprSeq : List PyVal → String
  | [] => ""
  | [x] => pyRepr x
  | x :: y :: rest => pyRepr x ++ ", " ++ pyReprSeq (y :: rest)

/-- Comma-separated `'key': repr` pairs of a dict's entries. -/
def pyReprPairs : List (String × PyVal) → String
  | [] => ""
  | [(k, v)] => "'" ++ k ++ "': " ++ pyRepr v
  | (k, v) :: p :: rest => "'" ++ k ++ "': " ++ pyRepr v ++ ", " ++ pyReprPairs (p :: rest)

end

/-- Whether a value is a string. -/
def isStrVal : PyVal → Bool
  | .str _ => true
  | _ => false

/-- Python `k in v` for a string `k`: key membership for a dict, element
equality for a list (a non-string element never equals a string),
substring containment for a string; `TypeError` (`Option.none`) for the
other types. -/
def pyContains (v : PyVal) (k : String) : Option Bool :=
  match v with
  | .dict xs => some (xs.any fun p => p.1 == k)
  | .list xs =>
      some (xs.any fun x =>
        match x with
        | .str s => s == k
        | _ => false)
  | .str s => some (strContains s k)
  | _ => Option.none

/-- Python `v[k]` for a string `k`: dict lookup; `KeyError` on a missing
key and `TypeError` on any non-dict are both `Option.none`. -/
def pySubscript (v : PyVal) (k : String) : Option PyVal :=
  match v with
  | .dict xs => pyLookup xs k
  | _ => Option.none

/-- Python `v.get(k, default)`: only a dict has `.get`
(`AttributeError`, i.e. `Option.none`, otherwise). -/
def pyGetD (v : PyVal) (k : String) (dflt : PyVal) : Option PyVal :=
  match v with
  | .dict xs => some ((pyLookup xs k).getD dflt)
  | _ => Option.none

/-- Python `len(v)`: defined on strings, lists and dicts. -/
def pyLen (v : PyVal) : Option Nat :=
  match v with
  | .str s => some s.length
  | .list xs => some xs.length
  | .dict xs => some xs.length
  | _ => Option.none

/-- Python `v.startswith(p)`: only a string has `.startswith`. -/
def pyStartsPy (v : PyVal) (p : String) : Option Bool :=
  match v with
  | .str s => some (strStarts s p)
  | _ => Option.none

/-- Python truthiness. -/
def pyTruthy : PyVal → Bool
  | .none => false
  | .bool b => b
  | .int n => n != 0
  | .str s => s != ""
  | .list xs => !xs.isEmpty
  | .dict xs => !xs.isEmpty

/-- Python iteration over a value: a list yields its elements, a string
its characters (as one-character strings), a dict its keys; iterating any
other value is a `TypeError`. -/
def pyIter : PyVal → Option (List PyVal)
  | .list xs => some xs
  | .str s => some (s.data.map fun c => .str ⟨[c]⟩)
  | .dict xs => some (xs.map fun p => .str p.1)
  | _ => Option.none

/-- Whether a value may enter a Python set (lists and dicts are
unhashable). -/
def pyHashable : PyVal → Bool
  | .list _ => false
  | .dict _ => false
  | _ => true

/-- The elements `tags.update(v)` adds to the set: the iteration of `v`,
a `TypeError` (`Option.none`) when `v` is not iterable or an element is
unhashable. -/
def pyUpdateElems (v : PyVal) : Option (List PyVal) :=
  match pyIter v with
  | Option.none => Option.none
  | some xs => if xs.all pyHashable then some xs else Option.none

/-! ## The validator (`validate_openapi.py`) -/

/-- What one operation value contributes to the validator's tag set:
nothing unless it is a dict with a `tags` key, else the elements of
`tags.update(operation["tags"])`. -/
def opTagElems : PyVal → Option (List PyVal)
  | .dict fields =>
      match pyLookup fields "tags" with
      | some tv => pyUpdateElems tv
      | Option.none => some []
  | _ => some []

/-- The tag elements collected from the operations of one path item. -/
def opsTagsList : List (String × PyVal) → Option (List PyVal)
  | [] => some []
  | (_, op) :: rest =>
      match opTagElems op with
      | Option.none => Option.none
      | some es =>
          match opsTagsList rest with
          | Option.none => Option.none
          | some rs => some (es ++ rs)

/-- `for operation in path_obj.values()`: the path item must be a dict. -/
def pathObjTags : PyVal → Option (List PyVal)
  | .dict ops => opsTagsList ops
  | _ => Option.none

/-- The tag elements collected from a list of path items. -/
def pathsTagsList : List (String × PyVal) → Option (List PyVal)
  | [] => some []
  | (_, pathObj) :: rest =>
      match pathObjTags pathObj with
      | Option.none => Option.none
      | some es =>
          match pathsTagsList rest with
          | Option.none => Option.none
          | some rs => some (es ++ rs)

/-- `for path_obj in spec['paths'].values()`: the paths value must be a
dict.  The set the loop fills is modelled by the list of added elements
(duplicates are irrelevant to the validator's outcome). -/
def pathsTags : PyVal → Option (List PyVal)
  | .dict pathsList => pathsTagsList pathsList
  | _ => Option.none

/-- How the validator's `try` body ends: an early `return False`, or the
final `return True` after printing the path and schema counts. -/
inductive ValOutcome where
  | rejected
  | accepted (pathsCount schemasCount : Nat)
  deriving Repr, DecidableEq

/-- The body of the validator's `try` block over the parsed document,
line by line: the three `field not in spec` checks, the
`spec['openapi'].startswith('3.')` check, the two `info` checks, the two
counts, the five report lines that index the document again, and the tag
collection with `', '.join(sorted(tags))` (which succeeds exactly when
every collected element is a string).  `Option.none` is an exception
escaping to the trailing handlers. -/
def validateBody (spec : PyVal) : Option ValOutcome :=
  match pyContains spec "openapi" with
  | Option.none => Option.none
  | some false => some .rejected
  | some true =>
  match pyContains spec "info" with
  | Option.none => Option.none
  | some false => some .rejected
  | some true =>
  match pyContains spec "paths" with
  | Option.none => Option.none
  | some false => some .rejected
  | some true =>
  match pySubscript spec "openapi" with
  | Option.none => Option.none
  | some openapiVal =>
  match pyStartsPy openapiVal "3." with
  | Option.none => Option.none
  | some false => some .rejected
  | some true =>
  match pySubscript spec "info" with
  | Option.none => Option.none
  | some infoVal =>
  match pyContains infoVal "title" with
  | Option.none => Option.none
  | some false => some .rejected
  | some true =>
  match pyContains infoVal "version" with
  | Option.none => Option.none
  | some false => some .rejected
  | some true =>
  match pyGetD spec "paths" (.dict []) with
  | Option.none => Option.none
  | some pathsDefault =>
  match pyLen pathsDefault with
  | Option.none => Option.none
  | some paths_count =>
  match pyGetD spec "components" (.dict []) with
  | Option.none => Option.none
  | some componentsVal =>
  match pyGetD componentsVal "schemas" (.dict []) with
  | Option.none => Option.none
  | some schemasVal =>
  match pyLen schemasVal with
  | Option.none => Option.none
  | some schemas_count =>
  match pySubscript spec "openapi" with
  | Option.none => Option.none
  | some _ =>
  match pySubscript spec "info" with
  | Option.none => Option.none
  | some infoVal2 =>
  match pySubscript infoVal2 "title" with
  | Option.none => Option.none
  | some _ =>
  match pySubscript infoVal2 "version" with
  | Option.none => Option.none
  | some _ =>
  match pySubscript spec "paths" with
  | Option.none => Option.none
  | some pathsVal =>
  match pathsTags pathsVal with
  | Option.none => Option.none
  | some tagElems =>
  if tagElems.all isStrVal then some (.accepted paths_count schemas_count)
  else Option.none

/-- How far `validate_openapi_spec` gets with the input file before the
document-level checks: the path may not exist, the suffix may be
unsupported, the YAML/JSON parse may fail, or a document is obtained. -/
inductive ParseResult where
  | missing
  | badFormat
  | parseError
  | parsed (doc : PyVal)

/-- `validate_openapi_spec`: `False` for a missing file, an unsupported
suffix or a parse error; on a parsed document, the `try` body's outcome
with every exception caught by the trailing handlers and turned into
`False`. -/
def validate_openapi_spec : ParseResult → Bool
  | .missing => false
  | .badFormat => false
  | .parseError => false
  | .parsed doc =>
      match validateBody doc with
      | some (.accepted _ _) => true
      | some .rejected => false
      | Option.none => false


/-! ## The sample generator (`generate_sample_openapi.py`) -/

namespace SampleGen

/-- Dataclass `ParameterInfo` of `generate_sample_openapi.py`. -/
structure ParameterInfo where
  name : String
  type : String
  description : String
  required : Bool := false
  location : String := "query"
  deriving Repr

/-- Dataclass `ResponseInfo`. -/
structure ResponseInfo where
  status_code : String
  description : String
  schema_ref : Option String := Option.none
  deriving Repr

/-- Dataclass `EndpointInfo`. -/
structure EndpointInfo where
  path : String
  method : String
  summary : String
  description : String
  parameters : List ParameterInfo := []
  responses : List ResponseInfo := []
  tags : List String := []
  deriving Repr

/-- Dataclass `PropertyInfo`. -/
structure PropertyInfo where
  name : String
  type : String
  description : String
  required : Bool := true
  nullable : Bool := false
  format : Option String := Option.none
  deriving Repr

/-- Dataclass `EntityInfo`. -/
structure EntityInfo where
  name : String
  description : String
  properties : List PropertyInfo := []
  deriving Repr

/-- The `Account` entity built by `create_sample_entities`. -/
def accountEntity : EntityInfo :=
  { name := "Account"
    description := "Represents a user of Mastodon and their associated profile."
    properties := [
      { name := "id", type := "string", description := "The account id" },
      { name := "username", type := "string", description := "The username of the account, not including domain" },
      { name := "acct", type := "string", description := "The Webfinger account URI" },
      { name := "display_name", type := "string", description := "The profile's display name" },
      { name := "locked", type := "boolean", description := "Whether the account manually approves follow requests" },
      { name := "bot", type := "boolean", description := "Whether the account may perform automated actions" },
      { name := "discoverable", type := "boolean", description := "Whether the account has opted into discovery features", required := false, nullable := true },
      { name := "group", type := "boolean", description := "Whether the account represents a Group actor", required := false },
      { name := "created_at", type := "string", description := "When the account was created", format := some "date-time" },
      { name := "note", type := "string", description := "The profile's bio / description" },
      { name := "url", type := "string", description := "The location of the user's profile page", format := some "uri" },
      { name := "avatar", type := "string", description := "An image icon that is shown next to statuses and in the profile", format := some "uri" },
      { name := "avatar_static", type := "string", description := "A static version of the avatar", format := some "uri" },
      { name := "header", type := "string", description := "An image banner that is shown above the profile", format := some "uri" },
      { name := "header_static", type := "string", description := "A static version of the header", format := some "uri" },
      { name := "followers_count", type := "integer", description := "The reported followers of this profile" },
      { name := "following_count", type := "integer", description := "The reported follows of this profile" },
      { name := "statuses_count", type := "integer", description := "How many statuses are attached to this account" },
      { name := "last_status_at", type := "string", description := "When the most recent status was posted", format := some "date", nullable := true },
      { name := "emojis", type := "array", description := "Custom emoji entities to be used when rendering the profile" },
      { name := "fields", type := "array", description := "Additional metadata attached to a profile as name-value pairs" }
    ] }

/-- The `Status` entity built by `create_sample_entities`. -/
def statusEntity : EntityInfo :=
  { name := "Status"
    description := "Represents a status posted by an account."
    properties := [
      { name := "id", type := "string", description := "ID of the status in the database" },
      { name := "uri", type := "string", description := "URI of the status used for federation", format := some "uri" },
      { name := "created_at", type := "string", description := "The date when this status was created", format := some "date-time" },
      { name := "account", type := "object", description := "The account that authored this status" },
      { name := "content", type := "string", description := "HTML-encoded status content" },
      { name := "visibility", type := "string", description := "Visibility of this status" },
      { name := "sensitive", type := "boolean", description := "Is this status marked as sensitive content?" },
      { name := "spoiler_text", type := "string", description := "Subject or summary line, below which status content is collapsed" },
      { name := "media_attachments", type := "array", description := "Media that is attached to this status" },
      { name := "application", type := "object", description := "The application used to post this status", nullable := true },
      { name := "mentions", type := "array", description := "Mentions of users within the status content" },
      { name := "tags", type := "array", description := "Hashtags used within the status content" },
      { name := "emojis", type := "array", description := "Custom emoji to be used when rendering status content" },
      { name := "reblogs_count", type := "integer", description := "How many boosts this status has received" },
      { name := "favourites_count", type := "integer", description := "How many favourites this status has received" },
      { name := "replies_count", type := "integer", description := "How many replies this status has received" },
      { name := "url", type := "string", description := "A link to the status's HTML representation", format := some "uri", nullable := true },
      { name := "in_reply_to_id", type := "string", description := "ID of the status being replied to", nullable := true },
      { name := "in_reply_to_account_id", type := "string", description := "ID of the account being replied to", nullable := true },
      { name := "reblog", type := "object", description := "The status being reblogged", nullable := true },
      { name := "poll", type := "object", description := "The poll attached to the status", nullable := true },
      { name := "card", type := "object", description := "Preview card for links included within status content", nullable := true },
      { name := "language", type := "string", description := "Primary language of this status", nullable := true },
      { name := "text", type := "string", description := "Plain-text source of a status", nullable := true },
      { name := "edited_at", type := "string", description := "Timestamp of when the status was last edited", format := some "date-time", nullable := true }
    ] }

/-- The `MediaAttachment` entity built by `create_sample_entities`. -/
def mediaEntity : EntityInfo :=
  { name := "MediaAttachment"
    description := "Represents a file or media attachment that can be added to a status."
    properties := [
      { name := "id", type := "string", description := "The ID of the attachment in the database" },
      { name := "type", type := "string", description := "The type of the attachment" },
      { name := "url", type := "string", description := "The location of the original full-size attachment", format := some "uri" },
      { name := "preview_url", type := "string", description := "The location of a scaled-down preview of the attachment", format := some "uri" },
      { name := "remote_url", type := "string", description := "The location of the full-size original attachment on the remote website", format := some "uri", nullable := true },
      { name := "description", type := "string", description := "Alternate text that describes what is in the media attachment", nullable := true },
      { name := "blurhash", type := "string", description := "A hash computed by the BlurHash algorithm", nullable := true },
      { name := "meta", type := "object", description := "Metadata returned by Paperclip", required := false }
    ] }

/-- The `Error` entity built by `create_sample_entities`. -/
def errorEntity : EntityInfo :=
  { name := "Error"
    description := "Represents an error."
    properties := [
      { name := "error", type := "string", description := "The error message" },
      { name := "error_description", type := "string", description := "A longer description of the error", required := false }
    ] }

/-- One of the basic one-property entities added in the final loop of
`create_sample_entities`. -/
def basicEntity (entityName : String) : EntityInfo :=
  { name := entityName
    description := "Represents a " ++ strLower entityName ++ "."
    properties := [
      { name := "id", type := "string", description := "The " ++ strLower entityName ++ " id" }
    ] }

/-- The entity table `self.entities` after `create_sample_entities`, in
insertion order (all keys are distinct, so the successive dict
assignments append). -/
def create_sample_entities : List (String × EntityInfo) :=
  [("Account", accountEntity), ("Status", statusEntity),
   ("MediaAttachment", mediaEntity), ("Error", errorEntity)] ++
  (["CustomEmoji", "Field", "Notification", "Poll", "Tag", "Application", "Token"].map
    fun entityName => (entityName, basicEntity entityName))

/-- The hardcoded `SAMPLE_ENDPOINTS` table:
(tag, method, path, summary, description). -/
def SAMPLE_ENDPOINTS : List (String × String × String × String × String) := [
  ("accounts", "GET", "/api/v1/accounts/:id", "Get account", "Retrieve information about an account"),
  ("accounts", "POST", "/api/v1/accounts", "Create account", "Register a new account"),
  ("accounts", "PATCH", "/api/v1/accounts/update_credentials", "Update account", "Update user credentials"),
  ("statuses", "GET", "/api/v1/statuses/:id", "Get status", "Retrieve a status"),
  ("statuses", "POST", "/api/v1/statuses", "Create status", "Publish a new status"),
  ("statuses", "DELETE", "/api/v1/statuses/:id", "Delete status", "Delete a status"),
  ("timelines", "GET", "/api/v1/timelines/home", "Home timeline", "Get home timeline"),
  ("timelines", "GET", "/api/v1/timelines/public", "Public timeline", "Get public timeline"),
  ("notifications", "GET", "/api/v1/notifications", "Get notifications", "Retrieve notifications"),
  ("follow_requests", "GET", "/api/v1/follow_requests", "Get follow requests", "Retrieve follow requests"),
  ("follow_requests", "POST", "/api/v1/follow_requests/:id/authorize", "Accept follow request", "Accept a follow request"),
  ("follow_requests", "POST", "/api/v1/follow_requests/:id/reject", "Reject follow request", "Reject a follow request"),
  ("media", "POST", "/api/v1/media", "Upload media", "Upload a media attachment"),
  ("polls", "GET", "/api/v1/polls/:id", "Get poll", "Retrieve a poll"),
  ("polls", "POST", "/api/v1/polls/:id/votes", "Vote in poll", "Vote in a poll"),
  ("search", "GET", "/api/v2/search", "Search", "Search for content"),
  ("instance", "GET", "/api/v1/instance", "Get instance", "Get instance information"),
  ("apps", "POST", "/api/v1/apps", "Create app", "Create a new application"),
  ("oauth", "POST", "/oauth/token", "Get token", "Obtain an access token"),
  ("streaming", "GET", "/api/v1/streaming/user", "User stream", "Stream user events")
]

/-- The three error responses appended to every endpoint. -/
def errorResponses : List ResponseInfo :=
  [{ status_code := "401", description := "Unauthorized", schema_ref := some "Error" },
   { status_code := "404", description := "Not found", schema_ref := some "Error" },
   { status_code := "422", description := "Unprocessable entity", schema_ref := some "Error" }]

/-- The four common query parameters added to timeline/notification GETs. -/
def pagingParams : List ParameterInfo :=
  [{ name := "max_id", type := "string", description := "Return results older than this ID" },
   { name := "since_id", type := "string", description := "Return results newer than this ID" },
   { name := "min_id", type := "string", description := "Return results immediately newer than this ID" },
   { name := "limit", type := "integer", description := "Maximum number of results to return" }]

/-- The body of the loop of `create_sample_endpoints` on one
`SAMPLE_ENDPOINTS` row. -/
def mkSampleEndpoint (row : String × String × String × String × String) : EndpointInfo :=
  let (tag, method, path, summary, description) := row
  let endpoint : EndpointInfo :=
    { path := path, method := strLower method, summary := summary,
      description := description, tags := [tag] }
  let endpoint :=
    if strContains path ":id" then
      { endpoint with parameters := endpoint.parameters ++
          [{ name := "id", type := "string", description := "The ID of the resource",
             required := true, location := "path" }] }
    else endpoint
  let endpoint :=
    if method == "GET" && (strContains path "timeline" || strContains path "notifications") then
      { endpoint with parameters := endpoint.parameters ++ pagingParams }
    else endpoint
  let endpoint :=
    if method == "GET" then
      if strContains path "accounts" && strContains path ":id" then
        { endpoint with responses := endpoint.responses ++
            [{ status_code := "200", description := "Success", schema_ref := some "Account" }] }
      else if strContains path "statuses" && strContains path ":id" then
        { endpoint with responses := endpoint.responses ++
            [{ status_code := "200", description := "Success", schema_ref := some "Status" }] }
      else if strContains path "timeline" || strContains path "notifications" then
        { endpoint with responses := endpoint.responses ++
            [{ status_code := "200", description := "Success" }] }
      else
        { endpoint with responses := endpoint.responses ++
            [{ status_code := "200", description := "Success" }] }
    else if method == "POST" || method == "PATCH" then
      if strContains path "accounts" then
        { endpoint with responses := endpoint.responses ++
            [{ status_code := "200", description := "Success", schema_ref := some "Account" }] }
      else if strContains path "statuses" then
        { endpoint with responses := endpoint.responses ++
            [{ status_code := "200", description := "Success", schema_ref := some "Status" }] }
      else
        { endpoint with responses := endpoint.responses ++
            [{ status_code := "200", description := "Success" }] }
    else if method == "DELETE" then
      { endpoint with responses := endpoint.responses ++
          [{ status_code := "200", description := "Success" }] }
    else endpoint
  { endpoint with responses := endpoint.responses ++ errorResponses }

/-- The endpoint list `self.endpoints` after `create_sample_endpoints`. -/
def create_sample_endpoints : List EndpointInfo :=
  SAMPLE_ENDPOINTS.map mkSampleEndpoint

/-- A `{"$ref": "#/components/schemas/<name>"}` object. -/
def refSchema (n : String) : PyVal :=
  .dict [("$ref", .str ("#/components/schemas/" ++ n))]

/-- The property schema built for one `PropertyInfo` (lines 319-355 of the
script): type and description, optional format and nullable, fixed item
refs for the four known array properties, and a full replacement by a
`$ref` for the four known object properties. -/
def propSchema (prop : PropertyInfo) : PyVal :=
  let base := [("type", PyVal.str prop.type), ("description", PyVal.str prop.description)]
  let base :=
    match prop.format with
    | some f => base ++ [("format", PyVal.str f)]
    | Option.none => base
  let base := if prop.nullable then base ++ [("nullable", PyVal.bool true)] else base
  let base :=
    if prop.type == "array" then
      let items :=
        if prop.name == "emojis" then refSchema "CustomEmoji"
        else if prop.name == "fields" then refSchema "Field"
        else if prop.name == "media_attachments" then refSchema "MediaAttachment"
        else if prop.name == "tags" then refSchema "Tag"
        else PyVal.dict [("type", .str "string")]
      base ++ [("items", items)]
    else base
  if prop.type == "object" then
    if prop.name == "account" then refSchema "Account"
    else if prop.name == "application" then refSchema "Application"
    else if prop.name == "poll" then refSchema "Poll"
    else if prop.name == "reblog" then refSchema "Status"
    else PyVal.dict [("type", .str "object")]
  else PyVal.dict base

/-- The names appended to `required_props` while looping over an entity's
properties. -/
def requiredProps (props : List PropertyInfo) : List String :=
  props.foldl (fun acc prop => if prop.required then acc ++ [prop.name] else acc) []

/-- The schema object stored for one entity: type, description and the
properties dict, with a `required` list appended when non-empty. -/
def entitySchema (entity : EntityInfo) : PyVal :=
  let properties :=
    entity.properties.foldl (fun acc prop => dictInsert acc prop.name (propSchema prop)) []
  let required_props := requiredProps entity.properties
  let base := [("type", PyVal.str "object"), ("description", PyVal.str entity.description),
               ("properties", PyVal.dict properties)]
  PyVal.dict (if required_props.isEmpty then base
              else base ++ [("required", PyVal.list (required_props.map PyVal.str))])

/-- The `components.schemas` dict built from the entity table. -/
def buildSchemas (entities : List (String × EntityInfo)) : List (String × PyVal) :=
  entities.foldl (fun acc e => dictInsert acc e.1 (entitySchema e.2)) []

/-- The parameter object emitted for one `ParameterInfo`. -/
def paramSchema (param : ParameterInfo) : PyVal :=
  .dict [("name", .str param.name), ("in", .str param.location),
         ("description", .str param.description), ("required", .bool param.required),
         ("schema", .dict [("type", .str param.type)])]

/-- The response object emitted for one `ResponseInfo`. -/
def responseSchema (response : ResponseInfo) : PyVal :=
  let base := [("description", PyVal.str response.description)]
  match response.schema_ref with
  | some r =>
      .dict (base ++ [("content", .dict [("application/json", .dict [("schema", refSchema r)])])])
  | Option.none => .dict base

/-- The operation object emitted for one endpoint: summary, description,
tags and responses; parameters when present; and `security` exactly when
`not path.startswith("/oauth") and method != "get" or "timeline" in path`. -/
def operationObj (endpoint : EndpointInfo) : PyVal :=
  let parameters := endpoint.parameters.map paramSchema
  let responses :=
    endpoint.responses.foldl (fun acc r => dictInsert acc r.status_code (responseSchema r)) []
  let op := [("summary", PyVal.str endpoint.summary),
             ("description", PyVal.str endpoint.description),
             ("tags", PyVal.list (endpoint.tags.map PyVal.str)),
             ("responses", PyVal.dict responses)]
  let op := if parameters.isEmpty then op else op ++ [("parameters", PyVal.list parameters)]
  let op :=
    if (!strStarts endpoint.path "/oauth" && endpoint.method != "get")
        || strContains endpoint.path "timeline" then
      op ++ [("security", PyVal.list [PyVal.dict [("BearerAuth", PyVal.list [])]])]
    else op
  PyVal.dict op

/-- The `paths` dict built from the endpoint list: `:id` becomes `{id}`,
path items are created on first use and extended per method. -/
def buildPaths (endpoints : List EndpointInfo) : List (String × PyVal) :=
  endpoints.foldl
    (fun paths endpoint =>
      let openapi_path := strReplace endpoint.path ":id" "\x7bid\x7d"
      let pathItem :=
        match pyLookup paths openapi_path with
        | some (.dict ops) => ops
        | _ => []
      dictInsert paths openapi_path
        (PyVal.dict (dictInsert pathItem endpoint.method (operationObj endpoint))))
    []

/-- `MastodonDocsGenerator.generate_openapi_spec`, as a function of the
entity and endpoint tables the two `create_` methods filled. -/
def generate_openapi_spec (entities : List (String × EntityInfo))
    (endpoints : List EndpointInfo) : PyVal :=
  .dict [
    ("openapi", .str "3.0.3"),
    ("info", .dict [
      ("title", .str "Mastodon API"),
      ("description", .str "API for Mastodon, a decentralized social network"),
      ("version", .str "4.3.0"),
      ("contact", .dict [("name", .str "Mastodon Project"),
                         ("url", .str "https://joinmastodon.org")]),
      ("license", .dict [("name", .str "AGPL-3.0"),
                         ("url", .str "https://github.com/mastodon/mastodon/blob/main/LICENSE")])]),
    ("servers", .list [
      .dict [("url", .str "https://\x7binstance\x7d"),
             ("description", .str "Mastodon instance"),
             ("variables", .dict [("instance", .dict [
               ("default", .str "mastodon.social"),
               ("description", .str "The domain of your Mastodon instance")])])]]),
    ("paths", .dict (buildPaths endpoints)),
    ("components", .dict [
      ("schemas", .dict (buildSchemas entities)),
      ("securitySchemes", .dict [
        ("OAuth2", .dict [
          ("type", .str "oauth2"),
          ("flows", .dict [("authorizationCode", .dict [
            ("authorizationUrl", .str "https://\x7binstance\x7d/oauth/authorize"),
            ("tokenUrl", .str "https://\x7binstance\x7d/oauth/token"),
            ("scopes", .dict [("read", .str "Read access"), ("write", .str "Write access"),
                              ("follow", .str "Follow users"), ("push", .str "Push notifications")])])])]),
        ("BearerAuth", .dict [("type", .str "http"), ("scheme", .str "bearer")])])])]

/-- The specification object of one full run of the sample generator. -/
def sampleSpec : PyVal :=
  generate_openapi_spec create_sample_entities create_sample_endpoints

end SampleGen

/-! ## The comprehensive generator (`generate_comprehensive_openapi.py`) -/

namespace CompGen

/-- Dataclass `ParameterInfo` of `generate_comprehensive_openapi.py`. -/
structure ParameterInfo where
  name : String
  type : String
  description : String
  required : Bool := false
  location : String := "query"
  deriving Repr

/-- Dataclass `ResponseInfo`. -/
structure ResponseInfo where
  status_code : String
  description : String
  schema_ref : Option String := Option.none
  deriving Repr

/-- Dataclass `EndpointInfo`. -/
structure EndpointInfo where
  path : String
  method : String
  summary : String
  description : String
  parameters : List ParameterInfo := []
  responses : List ResponseInfo := []
  tags : List String := []
  deriving Repr

/-- Dataclass `PropertyInfo` (this script adds `items_ref`). -/
structure PropertyInfo where
  name : String
  type : String
  description : String
  required : Bool := true
  nullable : Bool := false
  format : Option String := Option.none
  items_ref : Option String := Option.none
  deriving Repr

/-- Dataclass `EntityInfo`. -/
structure EntityInfo where
  name : String
  description : String
  properties : List PropertyInfo := []
  deriving Repr

/-- The `Account` entity of `create_comprehensive_entities`. -/
def accountEntity : EntityInfo :=
  { name := "Account"
    description := "Represents a user of Mastodon and their associated profile."
    properties := [
      { name := "id", type := "string", description := "The account id" },
      { name := "username", type := "string", description := "The username of the account, not including domain" },
      { name := "acct", type := "string", description := "The Webfinger account URI. Equal to username for local users, or username@domain for remote users" },
      { name := "display_name", type := "string", description := "The profile's display name" },
      { name := "locked", type := "boolean", description := "Whether the account manually approves follow requests" },
      { name := "bot", type := "boolean", description := "Whether the account may perform automated actions" },
      { name := "discoverable", type := "boolean", description := "Whether the account has opted into discovery features", required := false, nullable := true },
      { name := "group", type := "boolean", description := "Whether the account represents a Group actor", required := false },
      { name := "created_at", type := "string", description := "When the account was created", format := some "date-time" },
      { name := "note", type := "string", description := "The profile's bio / description" },
      { name := "url", type := "string", description := "The location of the user's profile page", format := some "uri" },
      { name := "uri", type := "string", description := "The user's ActivityPub actor identifier", format := some "uri", required := false },
      { name := "avatar", type := "string", description := "An image icon that is shown next to statuses and in the profile", format := some "uri" },
      { name := "avatar_static", type := "string", description := "A static version of the avatar", format := some "uri" },
      { name := "header", type := "string", description := "An image banner that is shown above the profile", format := some "uri" },
      { name := "header_static", type := "string", description := "A static version of the header", format := some "uri" },
      { name := "followers_count", type := "integer", description := "The reported followers of this profile" },
      { name := "following_count", type := "integer", description := "The reported follows of this profile" },
      { name := "statuses_count", type := "integer", description := "How many statuses are attached to this account" },
      { name := "last_status_at", type := "string", description := "When the most recent status was posted", format := some "date", nullable := true },
      { name := "noindex", type := "boolean", description := "Whether the local user has opted out of being indexed by search engines", required := false, nullable := true },
      { name := "emojis", type := "array", description := "Custom emoji entities to be used when rendering the profile", items_ref := some "CustomEmoji" },
      { name := "fields", type := "array", description := "Additional metadata attached to a profile as name-value pairs", items_ref := some "Field" },
      { name := "moved", type := "object", description := "Indicates that the profile is currently inactive and that its user has moved to a new account", nullable := true, required := false },
      { name := "suspended", type := "boolean", description := "An extra attribute returned only when an account is suspended", required := false },
      { name := "limited", type := "boolean", description := "An extra attribute returned only when an account is silenced", required := false },
      { name := "hide_collections", type := "boolean", description := "Whether the user hides the contents of their follows and followers collections", required := false }
    ] }

/-- The `CredentialAccount` entity: the `Account` properties plus the two
private ones. -/
def credAccountEntity : EntityInfo :=
  { name := "CredentialAccount"
    description := "Represents the current user's account with additional private information."
    properties := accountEntity.properties ++ [
      { name := "source", type := "object", description := "An extra attribute that contains source values to be used with API methods", required := false },
      { name := "role", type := "object", description := "The role assigned to the currently authorized user", required := false }
    ] }

/-- The `Status` entity of `create_comprehensive_entities`. -/
def statusEntity : EntityInfo :=
  { name := "Status"
    description := "Represents a status posted by an account."
    properties := [
      { name := "id", type := "string", description := "ID of the status in the database" },
      { name := "uri", type := "string", description := "URI of the status used for federation", format := some "uri" },
      { name := "created_at", type := "string", description := "The date when this status was created", format := some "date-time" },
      { name := "account", type := "object", description := "The account that authored this status" },
      { name := "content", type := "string", description := "HTML-encoded status content" },
      { name := "visibility", type := "string", description := "Visibility of this status" },
      { name := "sensitive", type := "boolean", description := "Is this status marked as sensitive content?" },
      { name := "spoiler_text", type := "string", description := "Subject or summary line, below which status content is collapsed" },
      { name := "media_attachments", type := "array", description := "Media that is attached to this status", items_ref := some "MediaAttachment" },
      { name := "application", type := "object", description := "The application used to post this status", nullable := true },
      { name := "mentions", type := "array", description := "Mentions of users within the status content", items_ref := some "Mention" },
      { name := "tags", type := "array", description := "Hashtags used within the status content", items_ref := some "Tag" },
      { name := "emojis", type := "array", description := "Custom emoji to be used when rendering status content", items_ref := some "CustomEmoji" },
      { name := "reblogs_count", type := "integer", description := "How many boosts this status has received" },
      { name := "favourites_count", type := "integer", description := "How many favourites this status has received" },
      { name := "replies_count", type := "integer", description := "How many replies this status has received" },
      { name := "url", type := "string", description := "A link to the status's HTML representation", format := some "uri", nullable := true },
      { name := "in_reply_to_id", type := "string", description := "ID of the status being replied to", nullable := true },
      { name := "in_reply_to_account_id", type := "string", description := "ID of the account being replied to", nullable := true },
      { name := "reblog", type := "object", description := "The status being reblogged", nullable := true },
      { name := "poll", type := "object", description := "The poll attached to the status", nullable := true },
      { name := "card", type := "object", description := "Preview card for links included within status content", nullable := true },
      { name := "language", type := "string", description := "Primary language of this status", nullable := true },
      { name := "text", type := "string", description := "Plain-text source of a status", nullable := true },
      { name := "edited_at", type := "string", description := "Timestamp of when the status was last edited", format := some "date-time", nullable := true },
      { name := "favourited", type := "boolean", description := "Have you favourited this status?", required := false },
      { name := "reblogged", type := "boolean", description := "Have you boosted this status?", required := false },
      { name := "muted", type := "boolean", description := "Have you muted notifications for this status's conversation?", required := false },
      { name := "bookmarked", type := "boolean", description := "Have you bookmarked this status?", required := false },
      { name := "pinned", type := "boolean", description := "Have you pinned this status?", required := false }
    ] }

/-- The `MediaAttachment` entity of `create_comprehensive_entities`. -/
def mediaEntity : EntityInfo :=
  { name := "MediaAttachment"
    description := "Represents a file or media attachment that can be added to a status."
    properties := [
      { name := "id", type := "string", description := "The ID of the attachment in the database" },
      { name := "type", type := "string", description := "The type of the attachment" },
      { name := "url", type := "string", description := "The location of the original full-size attachment", format := some "uri" },
      { name := "preview_url", type := "string", description := "The location of a scaled-down preview of the attachment", format := some "uri" },
      { name := "remote_url", type := "string", description := "The location of the full-size original attachment on the remote website", format := some "uri", nullable := true },
      { name := "meta", type := "object", description := "Metadata returned by Paperclip" },
      { name := "description", type := "string", description := "Alternate text that describes what is in the media attachment", nullable := true },
      { name := "blurhash", type := "string", description := "A hash computed by the BlurHash algorithm", nullable := true }
    ] }

/-- The `Notification` entity of `create_comprehensive_entities`. -/
def notificationEntity : EntityInfo :=
  { name := "Notification"
    description := "Represents a notification of an event relevant to the user."
    properties := [
      { name := "id", type := "string", description := "The id of the notification in the database" },
      { name := "type", type := "string", description := "The type of event that resulted in the notification" },
      { name := "created_at", type := "string", description := "The timestamp of the notification", format := some "date-time" },
      { name := "account", type := "object", description := "The account that performed the action that generated the notification" },
      { name := "status", type := "object", description := "Status that was the object of the notification", nullable := true },
      { name := "report", type := "object", description := "Report that was the object of the notification", nullable := true, required := false },
      { name := "relationship_severance_event", type := "object", description := "Summary of the event that caused follow relationships to be severed", nullable := true, required := false }
    ] }

/-- One property row of the `entities_data` table: the three leading
strings and the tuple's remaining elements as Python values (a format
string or nullable boolean in fourth position, an items ref in fifth). -/
abbrev PropData : Type := String × String × String × List PyVal

/-- The `entities_data` table: name, description and property tuples. -/
def entities_data : List (String × String × List PropData) := [
  ("CustomEmoji", "Represents a custom emoji.", [
    ("shortcode", "string", "The name of the custom emoji", []),
    ("url", "string", "A link to the custom emoji", [.str "uri"]),
    ("static_url", "string", "A link to a static copy of the custom emoji", [.str "uri"]),
    ("visible_in_picker", "boolean", "Whether this Emoji should be visible in the picker or unlisted", []),
    ("category", "string", "Used for sorting custom emoji in the picker", [.bool true])
  ]),
  ("Field", "Represents a profile field as a name-value pair with optional verification.", [
    ("name", "string", "The key of a given field's key-value pair", []),
    ("value", "string", "The value associated with the name key", []),
    ("verified_at", "string", "Timestamp of when the server verified a URL value for a rel=\"me\" link", [.str "date-time", .bool true])
  ]),
  ("Mention", "Represents a mention of a user within the status content.", [
    ("id", "string", "The account id of the mentioned user", []),
    ("username", "string", "The username of the mentioned user", []),
    ("url", "string", "The location of the mentioned user's profile", [.str "uri"]),
    ("acct", "string", "The webfinger acct: URI of the mentioned user", [])
  ]),
  ("Tag", "Represents a hashtag used within the status content.", [
    ("name", "string", "The value of the hashtag after the # sign", []),
    ("url", "string", "A link to the hashtag on the instance", [.str "uri"]),
    ("history", "array", "Usage statistics for given days", [.bool false, .str "TagHistory"]),
    ("following", "boolean", "Whether the current token's authorized user is following this tag", [.bool false])
  ]),
  ("Poll", "Represents a poll attached to a status.", [
    ("id", "string", "The ID of the poll in the database", []),
    ("expires_at", "string", "When the poll ends", [.str "date-time", .bool true]),
    ("expired", "boolean", "Is the poll currently expired?", []),
    ("multiple", "boolean", "Does the poll allow multiple-choice answers?", []),
    ("votes_count", "integer", "How many votes have been received", []),
    ("voters_count", "integer", "How many unique accounts have voted on a multiple-choice poll", [.bool true]),
    ("options", "array", "Possible answers for the poll", [.bool false, .str "PollOption"]),
    ("emojis", "array", "Custom emoji to be used for rendering poll options", [.bool false, .str "CustomEmoji"]),
    ("voted", "boolean", "When called with a user token, has the authorized user voted?", [.bool false]),
    ("own_votes", "array", "When called with a user token, which options has the authorized user chosen?", [.bool false])
  ]),
  ("PollOption", "Represents a poll choice.", [
    ("title", "string", "The text value of the poll option", []),
    ("votes_count", "integer", "The number of received votes for this option", [.bool true])
  ]),
  ("Application", "Represents an application that interfaces with the REST API to access accounts or post statuses.", [
    ("name", "string", "The name of your application", []),
    ("website", "string", "The website associated with your application", [.str "uri", .bool true]),
    ("vapid_key", "string", "Used for Push Streaming API", [.bool false])
  ]),
  ("Token", "Represents an OAuth token used for authenticating with the API and performing actions.", [
    ("access_token", "string", "An OAuth token to be used for authorization", []),
    ("token_type", "string", "The OAuth token type", []),
    ("scope", "string", "The OAuth scopes granted by this token", []),
    ("created_at", "integer", "When the token was generated", [])
  ]),
  ("Instance", "Represents the software instance of Mastodon running on this domain.", [
    ("uri", "string", "The domain name of the instance", []),
    ("title", "string", "The title of the website", []),
    ("short_description", "string", "A shorter description defined by the admin", []),
    ("description", "string", "A description for the instance", []),
    ("email", "string", "An email that may be contacted for any inquiries", []),
    ("version", "string", "The version of Mastodon installed on the instance", []),
    ("urls", "object", "URLs of interest for clients apps", []),
    ("stats", "object", "Statistics about how much information the instance contains", []),
    ("thumbnail", "string", "Banner image for the instance", [.str "uri", .bool true]),
    ("languages", "array", "Primary languages of the website and its staff", []),
    ("registrations", "boolean", "Whether registrations are enabled", []),
    ("approval_required", "boolean", "Whether registrations require moderator approval", []),
    ("invites_enabled", "boolean", "Whether invites are enabled", []),
    ("configuration", "object", "Configured values and limits for this website", []),
    ("contact_account", "object", "A user that can be contacted regarding the instance", [.bool true]),
    ("rules", "array", "An itemized list of rules for this website", [.bool false, .str "Rule"])
  ]),
  ("Error", "Represents an error.", [
    ("error", "string", "The error message", []),
    ("error_description", "string", "A longer description of the error", [.bool false])
  ]),
  ("Context", "Represents the tree around a given status.", [
    ("ancestors", "array", "Parents in the thread", [.bool false, .str "Status"]),
    ("descendants", "array", "Children in the thread", [.bool false, .str "Status"])
  ]),
  ("Conversation", "Represents a conversation with \"direct message\" visibility.", [
    ("id", "string", "Local database ID of the conversation", []),
    ("unread", "boolean", "Is the conversation currently marked as unread?", []),
    ("accounts", "array", "Participants in the conversation", [.bool false, .str "Account"]),
    ("last_status", "object", "The last status in the conversation", [.bool true])
  ])
]

/-- The property built from one `entities_data` tuple (lines 271-285 of
the script): the format is the fourth element when it is a string, the
nullable flag is the fourth element when it is a boolean (else `False`),
the items ref is the fifth element, and `required` is `not nullable`. -/
def propFromData (pd : PropData) : PropertyInfo :=
  let (prop_name, prop_type, prop_desc, rest) := pd
  let prop_format : Option String :=
    match rest.get? 0 with
    | some (.str s) => some s
    | _ => Option.none
  let prop_nullable : Bool :=
    match rest.get? 0 with
    | some (.bool b) => b
    | _ => false
  let prop_items_ref : Option String :=
    match rest.get? 1 with
    | some (.str s) => some s
    | _ => Option.none
  { name := prop_name, type := prop_type, description := prop_desc,
    format := prop_format, nullable := prop_nullable,
    items_ref := prop_items_ref, required := !prop_nullable }

/-- The entity built from one `entities_data` row. -/
def entityFromData (row : String × String × List PropData) : EntityInfo :=
  let (name, description, props) := row
  { name := name, description := description, properties := props.map propFromData }

/-- The entity table `self.entities` after `create_comprehensive_entities`,
in insertion order. -/
def create_comprehensive_entities : List (String × EntityInfo) :=
  [("Account", accountEntity), ("CredentialAccount", credAccountEntity),
   ("Status", statusEntity), ("MediaAttachment", mediaEntity),
   ("Notification", notificationEntity)] ++
  entities_data.map fun row => (row.1, entityFromData row)

end CompGen

namespace CompGen

/-- The hardcoded `endpoint_groups` table: tag and
(method, path, summary, description) rows. -/
def endpoint_groups : List (String × List (String × String × String × String)) := [
  ("accounts", [
    ("GET", "/api/v1/accounts/\x7bid\x7d", "View account", "View information about a profile"),
    ("GET", "/api/v1/accounts/verify_credentials", "Verify credentials", "Test to make sure that the user token works"),
    ("PATCH", "/api/v1/accounts/update_credentials", "Update credentials", "Update the user's display and preferences"),
    ("GET", "/api/v1/accounts/\x7bid\x7d/statuses", "Get account statuses", "Statuses posted to the given account"),
    ("GET", "/api/v1/accounts/\x7bid\x7d/followers", "Get account followers", "Accounts which follow the given account"),
    ("GET", "/api/v1/accounts/\x7bid\x7d/following", "Get account following", "Accounts which the given account is following"),
    ("POST", "/api/v1/accounts/\x7bid\x7d/follow", "Follow account", "Follow the given account"),
    ("POST", "/api/v1/accounts/\x7bid\x7d/unfollow", "Unfollow account", "Unfollow the given account"),
    ("POST", "/api/v1/accounts/\x7bid\x7d/block", "Block account", "Block the given account"),
    ("POST", "/api/v1/accounts/\x7bid\x7d/unblock", "Unblock account", "Unblock the given account"),
    ("POST", "/api/v1/accounts/\x7bid\x7d/mute", "Mute account", "Mute the given account"),
    ("POST", "/api/v1/accounts/\x7bid\x7d/unmute", "Unmute account", "Unmute the given account"),
    ("GET", "/api/v1/accounts/relationships", "Check relationships", "Find out whether a given account is followed, blocked, muted, etc."),
    ("GET", "/api/v1/accounts/search", "Search accounts", "Search for matching accounts by username or display name")
  ]),
  ("statuses", [
    ("GET", "/api/v1/statuses/\x7bid\x7d", "View status", "View information about a status"),
    ("POST", "/api/v1/statuses", "Publish status", "Post a new status"),
    ("DELETE", "/api/v1/statuses/\x7bid\x7d", "Delete status", "Delete one of your own statuses"),
    ("GET", "/api/v1/statuses/\x7bid\x7d/context", "Get status context", "View statuses above and below this status in the thread"),
    ("POST", "/api/v1/statuses/\x7bid\x7d/reblog", "Boost status", "Reshare a status"),
    ("POST", "/api/v1/statuses/\x7bid\x7d/unreblog", "Undo boost", "Undo a reshare of a status"),
    ("POST", "/api/v1/statuses/\x7bid\x7d/favourite", "Favourite status", "Add a status to your favourites list"),
    ("POST", "/api/v1/statuses/\x7bid\x7d/unfavourite", "Undo favourite", "Remove a status from your favourites list"),
    ("POST", "/api/v1/statuses/\x7bid\x7d/bookmark", "Bookmark status", "Privately bookmark a status"),
    ("POST", "/api/v1/statuses/\x7bid\x7d/unbookmark", "Undo bookmark", "Remove a status from your private bookmarks"),
    ("POST", "/api/v1/statuses/\x7bid\x7d/mute", "Mute conversation", "Do not receive notifications for the thread"),
    ("POST", "/api/v1/statuses/\x7bid\x7d/unmute", "Unmute conversation", "Start receiving notifications for the thread again"),
    ("POST", "/api/v1/statuses/\x7bid\x7d/pin", "Pin status", "Pin status to the top of your profile"),
    ("POST", "/api/v1/statuses/\x7bid\x7d/unpin", "Unpin status", "Unpin a status from the top of your profile"),
    ("PUT", "/api/v1/statuses/\x7bid\x7d", "Edit status", "Change the content of a status that has already been published"),
    ("GET", "/api/v1/statuses/\x7bid\x7d/history", "Get status edit history", "Get all known versions of a status in reverse chronological order"),
    ("GET", "/api/v1/statuses/\x7bid\x7d/source", "Get status source", "Obtain the source properties for a status")
  ]),
  ("timelines", [
    ("GET", "/api/v1/timelines/home", "Home timeline", "View statuses from followed users"),
    ("GET", "/api/v1/timelines/public", "Public timeline", "Public timeline"),
    ("GET", "/api/v1/timelines/tag/\x7bhashtag\x7d", "Hashtag timeline", "View public statuses containing the given hashtag"),
    ("GET", "/api/v1/timelines/list/\x7blist_id\x7d", "List timeline", "View statuses in the given list timeline")
  ]),
  ("notifications", [
    ("GET", "/api/v1/notifications", "Get notifications", "Receive notifications for the current user"),
    ("GET", "/api/v1/notifications/\x7bid\x7d", "Get single notification", "View information about a notification with a given ID"),
    ("POST", "/api/v1/notifications/clear", "Dismiss all notifications", "Clear all notifications from the server"),
    ("POST", "/api/v1/notifications/\x7bid\x7d/dismiss", "Dismiss single notification", "Clear a single notification from the server")
  ]),
  ("search", [
    ("GET", "/api/v2/search", "Search", "Search for content in accounts, statuses and hashtags")
  ]),
  ("instance", [
    ("GET", "/api/v1/instance", "View server information", "Information about the server"),
    ("GET", "/api/v1/instance/peers", "List of connected domains", "Domains that this instance is aware of"),
    ("GET", "/api/v1/instance/activity", "Weekly activity", "Instance activity over the last 3 months"),
    ("GET", "/api/v1/instance/rules", "View server rules", "Rules that the users of this service should follow"),
    ("GET", "/api/v1/instance/domain_blocks", "View domain blocks", "Obtain a list of domains that have been blocked"),
    ("GET", "/api/v1/instance/extended_description", "View extended description", "Obtain an extended description of this server")
  ]),
  ("apps", [
    ("POST", "/api/v1/apps", "Create an application", "Create a new application to obtain OAuth2 credentials"),
    ("GET", "/api/v1/apps/verify_credentials", "Verify your app works", "Confirm that the app's OAuth2 credentials work")
  ]),
  ("oauth", [
    ("POST", "/oauth/token", "Obtain a token", "Obtain an access token"),
    ("POST", "/oauth/revoke", "Revoke a token", "Revoke an access token")
  ]),
  ("media", [
    ("POST", "/api/v1/media", "Upload media attachment", "Creates an attachment to be used with a new status"),
    ("GET", "/api/v1/media/\x7bid\x7d", "Get media attachment", "Get a media attachment"),
    ("PUT", "/api/v1/media/\x7bid\x7d", "Update media attachment", "Update a MediaAttachment's parameters")
  ]),
  ("polls", [
    ("GET", "/api/v1/polls/\x7bid\x7d", "View a poll", "View a poll"),
    ("POST", "/api/v1/polls/\x7bid\x7d/votes", "Vote on a poll", "Submit a vote to a poll")
  ]),
  ("lists", [
    ("GET", "/api/v1/lists", "View your lists", "Fetch all lists that the user owns"),
    ("GET", "/api/v1/lists/\x7bid\x7d", "View a single list", "Fetch the list with the given ID"),
    ("POST", "/api/v1/lists", "Create a list", "Create a new list"),
    ("PUT", "/api/v1/lists/\x7bid\x7d", "Update a list", "Change the title of a list"),
    ("DELETE", "/api/v1/lists/\x7bid\x7d", "Delete a list", "Delete a list"),
    ("GET", "/api/v1/lists/\x7bid\x7d/accounts", "View accounts in list", "View accounts in the given list"),
    ("POST", "/api/v1/lists/\x7bid\x7d/accounts", "Add accounts to list", "Add accounts to the given list"),
    ("DELETE", "/api/v1/lists/\x7bid\x7d/accounts", "Remove accounts from list", "Remove accounts from the given list")
  ]),
  ("follow_requests", [
    ("GET", "/api/v1/follow_requests", "View pending follow requests", "Pending follow requests"),
    ("POST", "/api/v1/follow_requests/\x7baccount_id\x7d/authorize", "Accept follow request", "Accept a follow request"),
    ("POST", "/api/v1/follow_requests/\x7baccount_id\x7d/reject", "Reject follow request", "Reject a follow request")
  ]),
  ("blocks", [
    ("GET", "/api/v1/blocks", "View blocked users", "View your blocks")
  ]),
  ("mutes", [
    ("GET", "/api/v1/mutes", "View muted users", "View your mutes")
  ]),
  ("favourites", [
    ("GET", "/api/v1/favourites", "View favourited statuses", "Statuses the user has favourited")
  ]),
  ("bookmarks", [
    ("GET", "/api/v1/bookmarks", "View bookmarked statuses", "Statuses the user has bookmarked")
  ])
]

/-- Lookup in a literal association table. -/
def lookupAssoc {α : Type} (xs : List (String × α)) (k : String) : Option α :=
  match xs with
  | [] => Option.none
  | (k2, v) :: rest => if k2 == k then some v else lookupAssoc rest k

/-- The `success_responses` table of the endpoint loop. -/
def success_responses : List (String × List (String × String)) := [
  ("accounts", [
    ("verify_credentials", "CredentialAccount"),
    ("update_credentials", "CredentialAccount"),
    ("\x7bid\x7d", "Account"),
    ("search", "Account"),
    ("relationships", "Relationship")
  ]),
  ("statuses", [
    ("\x7bid\x7d", "Status"),
    ("", "Status"),
    ("context", "Context"),
    ("history", "StatusEdit"),
    ("source", "StatusSource")
  ]),
  ("notifications", [
    ("", "Notification"),
    ("\x7bid\x7d", "Notification")
  ]),
  ("instance", [
    ("", "Instance"),
    ("rules", "Rule"),
    ("activity", "Activity")
  ]),
  ("media", [
    ("", "MediaAttachment"),
    ("\x7bid\x7d", "MediaAttachment")
  ]),
  ("polls", [
    ("\x7bid\x7d", "Poll"),
    ("votes", "Poll")
  ]),
  ("apps", [
    ("", "Application"),
    ("verify_credentials", "Application")
  ]),
  ("oauth", [
    ("token", "Token")
  ]),
  ("search", [
    ("", "Search")
  ])
]

/-- The four common query parameters added to list-returning GETs. -/
def pagingParams : List ParameterInfo :=
  [{ name := "max_id", type := "string", description := "Return results older than this ID" },
   { name := "since_id", type := "string", description := "Return results newer than this ID" },
   { name := "min_id", type := "string", description := "Return results immediately newer than this ID" },
   { name := "limit", type := "integer", description := "Maximum number of results to return. Defaults to 20" }]

/-- The parameters added for `update_credentials`. -/
def updateCredentialsParams : List ParameterInfo :=
  [{ name := "display_name", type := "string", description := "The display name to use for the profile" },
   { name := "note", type := "string", description := "The account bio" },
   { name := "avatar", type := "string", description := "Avatar image encoded using multipart/form-data" },
   { name := "header", type := "string", description := "Header image encoded using multipart/form-data" },
   { name := "locked", type := "boolean", description := "Whether manual approval of follow requests is required" },
   { name := "bot", type := "boolean", description := "Whether the account is a bot" },
   { name := "discoverable", type := "boolean", description := "Whether the account should be shown in the profile directory" }]

/-- The parameters added for `POST /api/v1/statuses`. -/
def postStatusParams : List ParameterInfo :=
  [{ name := "status", type := "string", description := "Text content of the status" },
   { name := "media_ids", type := "array", description := "Array of attachment ids to be attached as media" },
   { name := "poll", type := "object", description := "Poll to be attached" },
   { name := "in_reply_to_id", type := "string", description := "ID of the status being replied to" },
   { name := "sensitive", type := "boolean", description := "Mark status and attached media as sensitive?" },
   { name := "spoiler_text", type := "string", description := "Text to be shown as a warning or subject before the actual content" },
   { name := "visibility", type := "string", description := "Visibility of the posted status" },
   { name := "language", type := "string", description := "ISO 639 language code for this status" },
   { name := "scheduled_at", type := "string", description := "ISO 8601 Datetime at which to schedule a status" }]

/-- The three error responses appended to every endpoint. -/
def errorResponses : List ResponseInfo :=
  [{ status_code := "401", description := "Unauthorized", schema_ref := some "Error" },
   { status_code := "404", description := "Not found", schema_ref := some "Error" },
   { status_code := "422", description := "Unprocessable entity", schema_ref := some "Error" }]

/-- The body of the endpoint loop of `create_comprehensive_endpoints` for
one tag and one (method, path, summary, description) row. -/
def mkCompEndpoint (tag : String) (row : String × String × String × String) : EndpointInfo :=
  let (method, path, summary, description) := row
  let endpoint : EndpointInfo :=
    { path := path, method := strLower method, summary := summary,
      description := description, tags := [tag] }
  let endpoint :=
    if strContains path "\x7bid\x7d" then
      { endpoint with parameters := endpoint.parameters ++
          [{ name := "id", type := "string", description := "The ID of the resource",
             required := true, location := "path" }] }
    else endpoint
  let endpoint :=
    if strContains path "\x7baccount_id\x7d" then
      { endpoint with parameters := endpoint.parameters ++
          [{ name := "account_id", type := "string",
             description := "The ID of the Account in the database",
             required := true, location := "path" }] }
    else endpoint
  let endpoint :=
    if strContains path "\x7bhashtag\x7d" then
      { endpoint with parameters := endpoint.parameters ++
          [{ name := "hashtag", type := "string", description := "The name of the hashtag",
             required := true, location := "path" }] }
    else endpoint
  let endpoint :=
    if strContains path "\x7blist_id\x7d" then
      { endpoint with parameters := endpoint.parameters ++
          [{ name := "list_id", type := "string",
             description := "The ID of the List in the database",
             required := true, location := "path" }] }
    else endpoint
  let endpoint :=
    if method == "GET" &&
        (["timeline", "notifications", "statuses", "followers", "following",
          "blocks", "mutes", "favourites", "bookmarks"].any fun x => strContains path x) then
      { endpoint with parameters := endpoint.parameters ++ pagingParams }
    else endpoint
  let endpoint :=
    if strContains path "update_credentials" then
      { endpoint with parameters := endpoint.parameters ++ updateCredentialsParams }
    else endpoint
  let endpoint :=
    if path == "/api/v1/statuses" && method == "POST" then
      { endpoint with parameters := endpoint.parameters ++ postStatusParams }
    else endpoint
  let lastSeg := (strSplit path "/").getLastD ""
  let path_key := if strContains lastSeg "\x7b" then "\x7bid\x7d" else lastSeg
  let response_schema : Option String :=
    match lookupAssoc success_responses tag with
    | some table =>
        match lookupAssoc table path_key with
        | some r => some r
        | Option.none => lookupAssoc table ""
    | Option.none => Option.none
  let endpoint :=
    if method == "GET" then
      if ["timeline", "followers", "following", "statuses"].any (fun x => strContains path x) then
        { endpoint with responses := endpoint.responses ++
            [{ status_code := "200", description := "Success" }] }
      else
        { endpoint with responses := endpoint.responses ++
            [{ status_code := "200", description := "Success", schema_ref := response_schema }] }
    else if method == "POST" || method == "PUT" || method == "PATCH" then
      if strContains path "clear" || strContains path "dismiss"
          || strContains path "authorize" || strContains path "reject" then
        { endpoint with responses := endpoint.responses ++
            [{ status_code := "200", description := "Success" }] }
      else
        { endpoint with responses := endpoint.responses ++
            [{ status_code := "200", description := "Success", schema_ref := response_schema }] }
    else if method == "DELETE" then
      { endpoint with responses := endpoint.responses ++
          [{ status_code := "200", description := "Success" }] }
    else endpoint
  { endpoint with responses := endpoint.responses ++ errorResponses }

/-- The endpoint list `self.endpoints` after
`create_comprehensive_endpoints`. -/
def create_comprehensive_endpoints : List EndpointInfo :=
  endpoint_groups.foldl
    (fun acc g => acc ++ g.2.map fun row => mkCompEndpoint g.1 row) []

/-- A `{"$ref": "#/components/schemas/<name>"}` object. -/
def refSchema (n : String) : PyVal :=
  .dict [("$ref", .str ("#/components/schemas/" ++ n))]

/-- The `ref_map` of the schema emitter (with the `.get(..., 'object')`
default). -/
def ref_map : List (String × String) :=
  [("account", "Account"), ("status", "Status"), ("application", "Application"),
   ("poll", "Poll"), ("reblog", "Status"), ("last_status", "Status"),
   ("moved", "Account")]

/-- The property schema built for one `PropertyInfo` (lines 615-646 of the
script): type and description, optional format and nullable, items from
`items_ref`, and a `$ref` replacement for the listed object properties. -/
def propSchema (prop : PropertyInfo) : PyVal :=
  let base := [("type", PyVal.str prop.type), ("description", PyVal.str prop.description)]
  let base :=
    match prop.format with
    | some f => base ++ [("format", PyVal.str f)]
    | Option.none => base
  let base := if prop.nullable then base ++ [("nullable", PyVal.bool true)] else base
  let base :=
    if prop.type == "array" then
      let items :=
        match prop.items_ref with
        | some r => refSchema r
        | Option.none => PyVal.dict [("type", .str "string")]
      base ++ [("items", items)]
    else base
  if prop.type == "object" &&
      ["account", "status", "application", "poll", "reblog", "last_status", "moved"].contains prop.name then
    refSchema ((lookupAssoc ref_map prop.name).getD "object")
  else PyVal.dict base

/-- The names appended to `required_props` while looping over an entity's
properties. -/
def requiredProps (props : List PropertyInfo) : List String :=
  props.foldl (fun acc prop => if prop.required then acc ++ [prop.name] else acc) []

/-- The schema object stored for one entity. -/
def entitySchema (entity : EntityInfo) : PyVal :=
  let properties :=
    entity.properties.foldl (fun acc prop => dictInsert acc prop.name (propSchema prop)) []
  let required_props := requiredProps entity.properties
  let base := [("type", PyVal.str "object"), ("description", PyVal.str entity.description),
               ("properties", PyVal.dict properties)]
  PyVal.dict (if required_props.isEmpty then base
              else base ++ [("required", PyVal.list (required_props.map PyVal.str))])

/-- The `components.schemas` dict built from the entity table. -/
def buildSchemas (entities : List (String × EntityInfo)) : List (String × PyVal) :=
  entities.foldl (fun acc e => dictInsert acc e.1 (entitySchema e.2)) []

/-- The parameter object emitted for one `ParameterInfo`. -/
def paramSchema (param : ParameterInfo) : PyVal :=
  .dict [("name", .str param.name), ("in", .str param.location),
         ("description", .str param.description), ("required", .bool param.required),
         ("schema", .dict [("type", .str param.type)])]

/-- The response object emitted for one `ResponseInfo`. -/
def responseSchema (response : ResponseInfo) : PyVal :=
  let base := [("description", PyVal.str response.description)]
  match response.schema_ref with
  | some r =>
      .dict (base ++ [("content", .dict [("application/json", .dict [("schema", refSchema r)])])])
  | Option.none => .dict base

/-- The operation object emitted for one endpoint: `security` is added
except for GET endpoints whose path contains `public` or `instance`. -/
def operationObj (endpoint : EndpointInfo) : PyVal :=
  let parameters := endpoint.parameters.map paramSchema
  let responses :=
    endpoint.responses.foldl (fun acc r => dictInsert acc r.status_code (responseSchema r)) []
  let op := [("summary", PyVal.str endpoint.summary),
             ("description", PyVal.str endpoint.description),
             ("tags", PyVal.list (endpoint.tags.map PyVal.str)),
             ("responses", PyVal.dict responses)]
  let op := if parameters.isEmpty then op else op ++ [("parameters", PyVal.list parameters)]
  let op :=
    if !(endpoint.method == "get"
          && (strContains endpoint.path "public" || strContains endpoint.path "instance")) then
      op ++ [("security", PyVal.list [PyVal.dict [("BearerAuth", PyVal.list [])]])]
    else op
  PyVal.dict op

/-- The `paths` dict built from the endpoint list (the script's
brace-to-brace `replace` calls are the identity). -/
def buildPaths (endpoints : List EndpointInfo) : List (String × PyVal) :=
  endpoints.foldl
    (fun paths endpoint =>
      let openapi_path :=
        strReplace (strReplace endpoint.path "\x7b" "\x7b") "\x7d" "\x7d"
      let pathItem :=
        match pyLookup paths openapi_path with
        | some (.dict ops) => ops
        | _ => []
      dictInsert paths openapi_path
        (PyVal.dict (dictInsert pathItem endpoint.method (operationObj endpoint))))
    []

/-- `ComprehensiveMastodonGenerator.generate_openapi_spec`, as a function
of the entity and endpoint tables the two `create_` methods filled. -/
def generate_openapi_spec (entities : List (String × EntityInfo))
    (endpoints : List EndpointInfo) : PyVal :=
  .dict [
    ("openapi", .str "3.0.3"),
    ("info", .dict [
      ("title", .str "Mastodon API"),
      ("description", .str "The Mastodon REST API. Please see https://docs.joinmastodon.org/api/ for more details."),
      ("version", .str "4.3.0"),
      ("contact", .dict [("name", .str "Mastodon Project"),
                         ("url", .str "https://joinmastodon.org")]),
      ("license", .dict [("name", .str "AGPL-3.0"),
                         ("url", .str "https://github.com/mastodon/mastodon/blob/main/LICENSE")])]),
    ("servers", .list [
      .dict [("url", .str "https://\x7binstance\x7d"),
             ("description", .str "Mastodon instance"),
             ("variables", .dict [("instance", .dict [
               ("default", .str "mastodon.social"),
               ("description", .str "The domain of your Mastodon instance")])])]]),
    ("paths", .dict (buildPaths endpoints)),
    ("components", .dict [
      ("schemas", .dict (buildSchemas entities)),
      ("securitySchemes", .dict [
        ("OAuth2", .dict [
          ("type", .str "oauth2"),
          ("description", .str "OAuth 2.0 authorization code flow"),
          ("flows", .dict [("authorizationCode", .dict [
            ("authorizationUrl", .str "https://\x7binstance\x7d/oauth/authorize"),
            ("tokenUrl", .str "https://\x7binstance\x7d/oauth/token"),
            ("scopes", .dict [
              ("read", .str "Read access to account data"),
              ("write", .str "Write access to account data"),
              ("follow", .str "Access to manage relationships"),
              ("push", .str "Access to Web Push API subscriptions")])])])]),
        ("BearerAuth", .dict [("type", .str "http"), ("scheme", .str "bearer"),
                              ("description", .str "Bearer token authentication")])])])]

/-- The specification object of one full run of the comprehensive
generator. -/
def comprehensiveSpec : PyVal :=
  generate_openapi_spec create_comprehensive_entities create_comprehensive_endpoints

end CompGen

/-! ## The docs-scraping generator (`generate_openapi.py`) -/

namespace ScrapeGen

/-- Dataclass `ParameterInfo` of `generate_openapi.py`. -/
structure ParameterInfo where
  name : String
  type : String
  description : String
  required : Bool := false
  location : String := "query"
  deriving Repr

/-- Dataclass `ResponseInfo`. -/
structure ResponseInfo where
  status_code : String
  description : String
  schema_ref : Option String := Option.none
  deriving Repr

/-- Dataclass `EndpointInfo`. -/
structure EndpointInfo where
  path : String
  method : String
  summary : String
  description : String
  parameters : List ParameterInfo := []
  responses : List ResponseInfo := []
  tags : List String := []
  deriving Repr

/-- Dataclass `PropertyInfo`. -/
structure PropertyInfo where
  name : String
  type : String
  description : String
  required : Bool := true
  nullable : Bool := false
  format : Option String := Option.none
  deriving Repr

/-- Dataclass `EntityInfo`. -/
structure EntityInfo where
  name : String
  description : String
  properties : List PropertyInfo := []
  deriving Repr

/-- The script's constants. -/
def MASTODON_DOCS_BASE_URL : String :=
  "https://api.github.com/repos/mastodon/documentation/contents"

/-- Path of the methods documentation tree. -/
def METHODS_PATH : String := "content/en/methods"

/-- Path of the entities documentation tree. -/
def ENTITIES_PATH : String := "content/en/entities"

/-- What one `requests.get` + `raise_for_status` + `response.json()`
sequence yields: an exception anywhere in it, or a parsed JSON value.
The network is a function from URL to such an outcome. -/
inductive FetchOutcome where
  | exc
  | json (data : PyVal)

/-- `fetch_file_content`: on any exception, the handler prints and the
function returns `None`; otherwise the body is decoded only when the
response declares `encoding == "base64"`.  The base64 + UTF-8 decoding of
the standard library is the `decode` parameter (`Option.none` for a
decoding exception, which the same handler turns into `None`). -/
def fetch_file_content (net : String → FetchOutcome) (decode : PyVal → Option String)
    (path : String) : Option String :=
  match net (MASTODON_DOCS_BASE_URL ++ "/" ++ path) with
  | .exc => Option.none
  | .json data =>
      match data with
      | .dict fields =>
          if (match pyLookup fields "encoding" with
              | some (.str e) => e == "base64"
              | _ => false) then
            match pyLookup fields "content" with
            | some c => decode c
            | Option.none => Option.none
          else Option.none
      | _ => Option.none

/-- `list_directory`: the parsed JSON of the listing URL, or `[]` after
the exception handler prints. -/
def list_directory (net : String → FetchOutcome) (path : String) : PyVal :=
  match net (MASTODON_DOCS_BASE_URL ++ "/" ++ path) with
  | .exc => .list []
  | .json data => data

/-- `parse_frontmatter_and_content`, with `yaml.safe_load` as the
`loadYaml` parameter (`Option.none` for a `yaml.YAMLError`): no leading
`---` or fewer than three `split("---", 2)` parts keep the content whole
with empty metadata; otherwise the loaded frontmatter (`or {}` for a
falsy one) and the stripped remainder. -/
def parse_frontmatter_and_content (loadYaml : String → Option PyVal)
    (content : String) : PyVal × String :=
  if !strStarts content "---" then (.dict [], content)
  else
    let parts := strSplit2 content "---"
    if parts.length < 3 then (.dict [], content)
    else
      match loadYaml (parts.getD 1 "") with
      | Option.none => (.dict [], content)
      | some fm => (if pyTruthy fm then fm else .dict [], strStrip (parts.getD 2 ""))

/-- A frontmatter scalar flattened to the string the model stores in a
dataclass field declared `str` (exact whenever the scalar is a string,
as it is for the documentation at hand). -/
def strOrForm : PyVal → String
  | .str s => s
  | v => pyStrForm v

/-- The property built from one attribute match of `parse_entity`
(groups: name, description, type info; lines 127-165): nullability from
the lowered type info, then the `String`/`Integer`/`Boolean`/`Array`/
`Hash` mapping with `uri` and `date-time` formats for `URL` and
`Datetime` strings. -/
def propertyOfMatch (m : String × String × String) : PropertyInfo :=
  let attr_name := m.1
  let description := strStrip m.2.1
  let type_info := strStrip m.2.2
  let nullable := strContains (strLower type_info) "nullable"
      || strContains (strLower type_info) "null"
  let tf : String × Option String :=
    if strContains type_info "String" then
      ("string", if strContains type_info "URL" then some "uri"
                 else if strContains type_info "Datetime" then some "date-time"
                 else Option.none)
    else if strContains type_info "Integer" then ("integer", Option.none)
    else if strContains type_info "Boolean" then ("boolean", Option.none)
    else if strContains type_info "Array" then ("array", Option.none)
    else if strContains type_info "Hash" then ("object", Option.none)
    else ("string", Option.none)
  { name := attr_name, type := tf.1, description := description,
    nullable := nullable, format := tf.2 }

/-- `parse_entity`, with the attribute-pattern `re.finditer` as the
`attrMatches` parameter.  The outer `Option` is an uncaught exception
(only possible from `.get` on a non-dict frontmatter); the inner one is
the function's own `None` for missing or empty content. -/
def parse_entity (net : String → FetchOutcome) (decode : PyVal → Option String)
    (loadYaml : String → Option PyVal)
    (attrMatches : String → List (String × String × String))
    (entity_file : String) : Option (Option EntityInfo) :=
  match fetch_file_content net decode (ENTITIES_PATH ++ "/" ++ entity_file) with
  | Option.none => some Option.none
  | some content =>
      if content == "" then some Option.none
      else
        let fmBody := parse_frontmatter_and_content loadYaml content
        let entity_name := pathStem entity_file
        match pyGetD fmBody.1 "description" (.str "") with
        | Option.none => Option.none
        | some descV =>
            some (some { name := entity_name, description := strOrForm descV,
                         properties := (attrMatches fmBody.2).map propertyOfMatch })

/-- `parse_method_file`, with the parameter-table `re.finditer` as the
`paramMatches` parameter (groups: name, type, description, required).
The outer `Option` is an uncaught exception, the inner one the
function's own `None`. -/
def parse_method_file (net : String → FetchOutcome) (decode : PyVal → Option String)
    (loadYaml : String → Option PyVal)
    (paramMatches : String → List (String × String × String × String))
    (method_path : String) (http_method : String) : Option (Option EndpointInfo) :=
  match fetch_file_content net decode method_path with
  | Option.none => some Option.none
  | some content =>
      if content == "" then some Option.none
      else
        let fmBody := parse_frontmatter_and_content loadYaml content
        let path_parts := strSplit method_path "/"
        let sectioned := path_parts.length ≥ 4 && path_parts.getD 2 "" == "methods"
        let api_path :=
          if sectioned then "/api/v1/" ++ path_parts.getD 3 "" else "/api/v1/unknown"
        let tags := if sectioned then [path_parts.getD 3 ""] else []
        match pyGetD fmBody.1 "title" (.str "") with
        | Option.none => Option.none
        | some titleV =>
        match pyGetD fmBody.1 "description" (.str "") with
        | Option.none => Option.none
        | some descV =>
            let params := (paramMatches fmBody.2).foldl
              (fun ps m =>
                let param_name := strStrip m.1
                let param_type := strStrip m.2.1
                let param_desc := strStrip m.2.2.1
                let param_required := strLower (strStrip m.2.2.2) == "required"
                if param_name != "" && param_name != "Name" then
                  ps ++ [{ name := param_name,
                           type := if ["string", "integer", "boolean"].contains (strLower param_type)
                                   then strLower param_type else "string",
                           description := param_desc, required := param_required }]
                else ps)
              []
            some (some { path := api_path, method := strLower http_method,
                         summary := strOrForm titleV, description := strOrForm descV,
                         parameters := params,
                         responses := [{ status_code := "200", description := "Success" }],
                         tags := tags })

/-- The entity loop of `parse_all_entities` over the listed directory
entries; `Option.none` is an uncaught exception (a subscript or
attribute error on an entry of unexpected shape). -/
def entitiesLoop (net : String → FetchOutcome) (decode : PyVal → Option String)
    (loadYaml : String → Option PyVal)
    (attrMatches : String → List (String × String × String)) :
    List PyVal → List (String × EntityInfo) → Option (List (String × EntityInfo))
  | [], table => some table
  | entity :: rest, table =>
      match pySubscript entity "type" with
      | Option.none => Option.none
      | some tv =>
          if (match tv with | .str s => s == "file" | _ => false) then
            match pySubscript entity "name" with
            | Option.none => Option.none
            | some (.str nm) =>
                if strEnds nm ".md" then
                  match parse_entity net decode loadYaml attrMatches nm with
                  | Option.none => Option.none
                  | some Option.none => entitiesLoop net decode loadYaml attrMatches rest table
                  | some (some parsed) =>
                      entitiesLoop net decode loadYaml attrMatches rest
                        (dictInsert table parsed.name parsed)
                else entitiesLoop net decode loadYaml attrMatches rest table
            | some _ => Option.none
          else entitiesLoop net decode loadYaml attrMatches rest table

/-- `parse_all_entities`: list the entities directory and run the loop on
an empty table. -/
def parse_all_entities (net : String → FetchOutcome) (decode : PyVal → Option String)
    (loadYaml : String → Option PyVal)
    (attrMatches : String → List (String × String × String)) :
    Option (List (String × EntityInfo)) :=
  match pyIter (list_directory net ENTITIES_PATH) with
  | Option.none => Option.none
  | some items => entitiesLoop net decode loadYaml attrMatches items []

/-- The inner file loop of `parse_all_methods` for one method directory. -/
def methodFilesLoop (net : String → FetchOutcome) (decode : PyVal → Option String)
    (loadYaml : String → Option PyVal)
    (paramMatches : String → List (String × String × String × String))
    (dirName : String) :
    List PyVal → List EndpointInfo → Option (List EndpointInfo)
  | [], endpoints => some endpoints
  | method_file :: rest, endpoints =>
      match pySubscript method_file "type" with
      | Option.none => Option.none
      | some tv =>
          if (match tv with | .str s => s == "file" | _ => false) then
            match pySubscript method_file "name" with
            | Option.none => Option.none
            | some (.str fname) =>
                if strEnds fname ".md" then
                  let http_method := pathStem fname
                  if ["GET", "POST", "PUT", "PATCH", "DELETE"].contains (strUpper http_method) then
                    match parse_method_file net decode loadYaml paramMatches
                        (METHODS_PATH ++ "/" ++ dirName ++ "/" ++ fname) http_method with
                    | Option.none => Option.none
                    | some Option.none =>
                        methodFilesLoop net decode loadYaml paramMatches dirName rest endpoints
                    | some (some endpoint) =>
                        methodFilesLoop net decode loadYaml paramMatches dirName rest
                          (endpoints ++ [endpoint])
                  else methodFilesLoop net decode loadYaml paramMatches dirName rest endpoints
                else methodFilesLoop net decode loadYaml paramMatches dirName rest endpoints
            | some _ => Option.none
          else methodFilesLoop net decode loadYaml paramMatches dirName rest endpoints

/-- The outer directory loop of `parse_all_methods`. -/
def methodDirsLoop (net : String → FetchOutcome) (decode : PyVal → Option String)
    (loadYaml : String → Option PyVal)
    (paramMatches : String → List (String × String × String × String)) :
    List PyVal → List EndpointInfo → Option (List EndpointInfo)
  | [], endpoints => some endpoints
  | method_dir :: rest, endpoints =>
      match pySubscript method_dir "type" with
      | Option.none => Option.none
      | some tv =>
          if (match tv with | .str s => s == "dir" | _ => false) then
            match pySubscript method_dir "name" with
            | Option.none => Option.none
            | some nv =>
                let dirName := pyStrForm nv
                match pyIter (list_directory net (METHODS_PATH ++ "/" ++ dirName)) with
                | Option.none => Option.none
                | some files =>
                    match methodFilesLoop net decode loadYaml paramMatches dirName
                        files endpoints with
                    | Option.none => Option.none
                    | some endpoints2 =>
                        methodDirsLoop net decode loadYaml paramMatches rest endpoints2
          else methodDirsLoop net decode loadYaml paramMatches rest endpoints

/-- `parse_all_methods`: list the methods directory and run the nested
loops on an empty endpoint list. -/
def parse_all_methods (net : String → FetchOutcome) (decode : PyVal → Option String)
    (loadYaml : String → Option PyVal)
    (paramMatches : String → List (String × String × String × String)) :
    Option (List EndpointInfo) :=
  match pyIter (list_directory net METHODS_PATH) with
  | Option.none => Option.none
  | some dirs => methodDirsLoop net decode loadYaml paramMatches dirs []

/-- A `{"$ref": "#/components/schemas/<name>"}` object. -/
def refSchema (n : String) : PyVal :=
  .dict [("$ref", .str ("#/components/schemas/" ++ n))]

/-- The property schema this script emits (lines 313-328): type,
description, optional format and nullable, and string items for every
array. -/
def propSchema (prop : PropertyInfo) : PyVal :=
  let base := [("type", PyVal.str prop.type), ("description", PyVal.str prop.description)]
  let base :=
    match prop.format with
    | some f => base ++ [("format", PyVal.str f)]
    | Option.none => base
  let base := if prop.nullable then base ++ [("nullable", PyVal.bool true)] else base
  let base :=
    if prop.type == "array" then base ++ [("items", PyVal.dict [("type", .str "string")])]
    else base
  PyVal.dict base

/-- The names appended to `required_props` while looping over an entity's
properties. -/
def requiredProps (props : List PropertyInfo) : List String :=
  props.foldl (fun acc prop => if prop.required then acc ++ [prop.name] else acc) []

/-- The schema object stored for one entity. -/
def entitySchema (entity : EntityInfo) : PyVal :=
  let properties :=
    entity.properties.foldl (fun acc prop => dictInsert acc prop.name (propSchema prop)) []
  let required_props := requiredProps entity.properties
  let base := [("type", PyVal.str "object"), ("description", PyVal.str entity.description),
               ("properties", PyVal.dict properties)]
  PyVal.dict (if required_props.isEmpty then base
              else base ++ [("required", PyVal.list (required_props.map PyVal.str))])

/-- The `components.schemas` dict built from the entity table. -/
def buildSchemas (entities : List (String × EntityInfo)) : List (String × PyVal) :=
  entities.foldl (fun acc e => dictInsert acc e.1 (entitySchema e.2)) []

/-- The parameter object emitted for one `ParameterInfo`. -/
def paramSchema (param : ParameterInfo) : PyVal :=
  .dict [("name", .str param.name), ("in", .str param.location),
         ("description", .str param.description), ("required", .bool param.required),
         ("schema", .dict [("type", .str param.type)])]

/-- The response object emitted for one `ResponseInfo`. -/
def responseSchema (response : ResponseInfo) : PyVal :=
  let base := [("description", PyVal.str response.description)]
  match response.schema_ref with
  | some r =>
      .dict (base ++ [("content", .dict [("application/json", .dict [("schema", refSchema r)])])])
  | Option.none => .dict base

/-- The operation object this script emits: parameters, responses and
`security` are always present. -/
def operationObj (endpoint : EndpointInfo) : PyVal :=
  let parameters := endpoint.parameters.map paramSchema
  let responses :=
    endpoint.responses.foldl (fun acc r => dictInsert acc r.status_code (responseSchema r)) []
  .dict [("summary", PyVal.str endpoint.summary),
         ("description", PyVal.str endpoint.description),
         ("tags", PyVal.list (endpoint.tags.map PyVal.str)),
         ("parameters", PyVal.list parameters),
         ("responses", PyVal.dict responses),
         ("security", PyVal.list [PyVal.dict [("BearerAuth", PyVal.list [])]])]

/-- The `paths` dict built from the endpoint list (paths are used as
they are). -/
def buildPaths (endpoints : List EndpointInfo) : List (String × PyVal) :=
  endpoints.foldl
    (fun paths endpoint =>
      let pathItem :=
        match pyLookup paths endpoint.path with
        | some (.dict ops) => ops
        | _ => []
      dictInsert paths endpoint.path
        (PyVal.dict (dictInsert pathItem endpoint.method (operationObj endpoint))))
    []

/-- `MastodonDocsParser.generate_openapi_spec`, as a function of the
entity and endpoint tables the parsing methods filled. -/
def generate_openapi_spec (entities : List (String × EntityInfo))
    (endpoints : List EndpointInfo) : PyVal :=
  .dict [
    ("openapi", .str "3.0.3"),
    ("info", .dict [
      ("title", .str "Mastodon API"),
      ("description", .str "API for Mastodon, a decentralized social network"),
      ("version", .str "4.3.0"),
      ("contact", .dict [("name", .str "Mastodon Project"),
                         ("url", .str "https://joinmastodon.org")]),
      ("license", .dict [("name", .str "AGPL-3.0"),
                         ("url", .str "https://github.com/mastodon/mastodon/blob/main/LICENSE")])]),
    ("servers", .list [
      .dict [("url", .str "https://\x7binstance\x7d"),
             ("description", .str "Mastodon instance"),
             ("variables", .dict [("instance", .dict [
               ("default", .str "mastodon.social"),
               ("description", .str "The domain of your Mastodon instance")])])]]),
    ("paths", .dict (buildPaths endpoints)),
    ("components", .dict [
      ("schemas", .dict (buildSchemas entities)),
      ("securitySchemes", .dict [
        ("OAuth2", .dict [
          ("type", .str "oauth2"),
          ("flows", .dict [("authorizationCode", .dict [
            ("authorizationUrl", .str "https://\x7binstance\x7d/oauth/authorize"),
            ("tokenUrl", .str "https://\x7binstance\x7d/oauth/token"),
            ("scopes", .dict [("read", .str "Read access"), ("write", .str "Write access"),
                              ("follow", .str "Follow users"), ("push", .str "Push notifications")])])])]),
        ("BearerAuth", .dict [("type", .str "http"), ("scheme", .str "bearer")])])])]

end ScrapeGen

/-! ## Claim-support definitions -/

/-- Whether a value is a dict with the given key. -/
def hasKey (v : PyVal) (k : String) : Bool :=
  match v with
  | .dict xs => (pyLookup xs k).isSome
  | _ => false

/-- Whether the operation at `paths[path][method]` of a specification
object carries a `security` key (`Option.none` when the path or method is
absent). -/
def opHasSecurity (spec : PyVal) (path method : String) : Option Bool :=
  match pySubscript spec "paths" with
  | some pathsVal =>
      match pySubscript pathsVal path with
      | some item =>
          match pySubscript item method with
          | some op => some (hasKey op "security")
          | Option.none => Option.none
      | Option.none => Option.none
  | Option.none => Option.none

/-- Whether every GET operation of the specification's `paths` carries
`security` exactly when its path contains `timeline`. -/
def getOpsSecurityOk (spec : PyVal) : Bool :=
  match pySubscript spec "paths" with
  | some (.dict paths) =>
      paths.all fun pkv =>
        match pkv.2 with
        | .dict ops =>
            ops.all fun okv =>
              if okv.1 == "get" then hasKey okv.2 "security" == strContains pkv.1 "timeline"
              else true
        | _ => false
  | _ => false

/-- The number of entries `len(spec.get('components', {}).get('schemas', {}))`
counts on a document whose top level is the dict `xs`, when no exception
occurs there (`Option.none` for a non-dict `components` value). -/
def schemasCountSpec (xs : List (String × PyVal)) : Option Nat :=
  match pyLookup xs "components" with
  | Option.none => some 0
  | some (.dict comps) => pyLen ((pyLookup comps "schemas").getD (.dict []))
  | some _ => Option.none

/-- The four items of claim C1, read off a parsed document: an `openapi`
key whose value's string form starts with `3.`, an `info` mapping holding
`title` and `version`, and a `paths` key. -/
def claimItems : PyVal → Bool
  | .dict xs =>
      (match pyLookup xs "openapi" with
       | some ov => strStarts (pyStrForm ov) "3."
       | Option.none => false) &&
      (match pyLookup xs "info" with
       | some (.dict info) =>
           (pyLookup info "title").isSome && (pyLookup info "version").isSome
       | _ => false) &&
      (pyLookup xs "paths").isSome
  | _ => false

/-- Whether one operation value lets the validator's tag collection
succeed with only strings: either it is not a dict with a `tags` key, or
that key's value updates the set with string elements only. -/
def opTagsOk (op : PyVal) : Bool :=
  match op with
  | .dict fields =>
      (match pyLookup fields "tags" with
       | some tv =>
           match pyUpdateElems tv with
           | some elems => elems.all isStrVal
           | Option.none => false
       | Option.none => true)
  | _ => true

/-- Whether one entry of the `paths` mapping is a dict of well-tagged
operations. -/
def pathItemOk : PyVal → Bool
  | .dict ops => ops.all fun o => opTagsOk o.2
  | _ => false

/-- Whether every entry of the `paths` mapping is a dict of well-tagged
operations. -/
def pathsOk (paths : List (String × PyVal)) : Bool :=
  paths.all fun p => pathItemOk p.2

/-- Whether the sample generator's `required` list on an entity's schema
lists exactly the property names flagged required, and is present exactly
when some property is flagged. -/
def sampleRequiredOk (entity : SampleGen.EntityInfo) : Bool :=
  match SampleGen.entitySchema entity with
  | .dict fields =>
      (match pyLookup fields "required" with
       | some (.list names) =>
           (entity.properties.all fun p =>
             (names.any fun x => match x with | .str s2 => s2 == p.name | _ => false)
               == p.required)
           && (entity.properties.any fun p => p.required)
       | Option.none => entity.properties.all fun p => !p.required
       | some _ => false)
  | _ => false

/-- The comprehensive generator's variant of `sampleRequiredOk`. -/
def compRequiredOk (entity : CompGen.EntityInfo) : Bool :=
  match CompGen.entitySchema entity with
  | .dict fields =>
      (match pyLookup fields "required" with
       | some (.list names) =>
           (entity.properties.all fun p =>
             (names.any fun x => match x with | .str s2 => s2 == p.name | _ => false)
               == p.required)
           && (entity.properties.any fun p => p.required)
       | Option.none => entity.properties.all fun p => !p.required
       | some _ => false)
  | _ => false

/-- The scraping generator's variant of `sampleRequiredOk`. -/
def scrapeRequiredOk (entity : ScrapeGen.EntityInfo) : Bool :=
  match ScrapeGen.entitySchema entity with
  | .dict fields =>
      (match pyLookup fields "required" with
       | some (.list names) =>
           (entity.properties.all fun p =>
             (names.any fun x => match x with | .str s2 => s2 == p.name | _ => false)
               == p.required)
           && (entity.properties.any fun p => p.required)
       | Option.none => entity.properties.all fun p => !p.required
       | some _ => false)
  | _ => false

/-- Whether a specification object has the top-level shape of claim C4:
`openapi` equal to `3.0.3`, the five top-level keys, and a `components`
value holding `schemas` and `securitySchemes`. -/
def topLevelOk (spec : PyVal) : Bool :=
  (match pySubscript spec "openapi" with
   | some (.str s) => s == "3.0.3"
   | _ => false) &&
  (pySubscript spec "openapi").isSome && (pySubscript spec "info").isSome &&
  (pySubscript spec "servers").isSome && (pySubscript spec "paths").isSome &&
  (match pySubscript spec "components" with
   | some comps =>
       (pySubscript comps "schemas").isSome && (pySubscript comps "securitySchemes").isSome
   | Option.none => false)

/-! ## Lemmas about the validator -/

theorem any_key_eq_isSome (xs : List (String × PyVal)) (k : String) :
    (xs.any fun p => p.1 == k) = (pyLookup xs k).isSome := by
  induction xs with
  | nil => simp [pyLookup]
  | cons hd tl ih =>
      cases hd with
      | mk k2 v =>
          simp only [List.any_cons, pyLookup]
          by_cases h : k2 == k
          · simp [h]
          · simp [h, ih]

theorem validateBody_accepted_raw (v : PyVal) (p s : Nat)
    (h : validateBody v = some (.accepted p s)) :
    ∃ ov infoV pathsDefV compsV schemasV titleV versionV pathsV ts,
      pySubscript v "openapi" = some ov ∧ pyStartsPy ov "3." = some true ∧
      pySubscript v "info" = some infoV ∧ pyContains infoV "title" = some true ∧
      pyContains infoV "version" = some true ∧
      pyGetD v "paths" (.dict []) = some pathsDefV ∧ pyLen pathsDefV = some p ∧
      pyGetD v "components" (.dict []) = some compsV ∧
      pyGetD compsV "schemas" (.dict []) = some schemasV ∧ pyLen schemasV = some s ∧
      pySubscript infoV "title" = some titleV ∧ pySubscript infoV "version" = some versionV ∧
      pySubscript v "paths" = some pathsV ∧ pathsTags pathsV = some ts ∧
      ts.all isStrVal = true := by
  unfold validateBody at h
  repeat' split at h
  all_goals simp_all

theorem validateBody_accepted_iff (v : PyVal) (p s : Nat) :
    validateBody v = some (.accepted p s) ↔
      ∃ xs oa info paths ts,
        v = .dict xs ∧
        pyLookup xs "openapi" = some (.str oa) ∧ strStarts oa "3." = true ∧
        pyLookup xs "info" = some (.dict info) ∧
        (pyLookup info "title").isSome = true ∧ (pyLookup info "version").isSome = true ∧
        pyLookup xs "paths" = some (.dict paths) ∧
        p = paths.length ∧
        schemasCountSpec xs = some s ∧
        pathsTagsList paths = some ts ∧ ts.all isStrVal = true := by
  constructor
  · intro h
    obtain ⟨ov, infoV, pathsDefV, compsV, schemasV, titleV, versionV, pathsV, ts,
      hOv, hStarts, hInfo, hTitleC, hVersionC, hPathsDef, hPLen, hComps, hSchemas,
      hSLen, hTitleS, hVersionS, hPathsS, hTags, hAll⟩ := validateBody_accepted_raw v p s h
    obtain ⟨xs, hv⟩ : ∃ xs, v = .dict xs := by
      cases v <;> simp_all [pySubscript]
    subst hv
    obtain ⟨oa, hoa, hoa3⟩ : ∃ oa, ov = .str oa ∧ strStarts oa "3." = true := by
      cases ov <;> simp_all [pyStartsPy]
    subst hoa
    obtain ⟨info, hinfo⟩ : ∃ info, infoV = .dict info := by
      cases infoV <;> simp_all [pySubscript]
    subst hinfo
    obtain ⟨paths, hpaths⟩ : ∃ paths, pathsV = .dict paths := by
      cases pathsV <;> simp_all [pathsTags]
    subst hpaths
    simp only [pySubscript] at hOv hInfo hPathsS hTitleS hVersionS
    simp only [pathsTags] at hTags
    simp only [pyGetD, Option.some.injEq, hPathsS] at hPathsDef
    rw [Option.getD_some] at hPathsDef
    subst hPathsDef
    simp only [pyLen, Option.some.injEq] at hPLen
    refine ⟨xs, oa, info, paths, ts, rfl, hOv, hoa3, hInfo, ?_, ?_, hPathsS,
      hPLen.symm, ?_, hTags, hAll⟩
    · simp [hTitleS]
    · simp [hVersionS]
    · simp only [pyGetD, Option.some.injEq] at hComps
      cases hc : pyLookup xs "components" with
      | none =>
          rw [hc] at hComps
          simp only [Option.getD_none] at hComps
          subst hComps
          simp only [pyGetD, pyLookup, Option.getD_none, Option.some.injEq] at hSchemas
          subst hSchemas
          simp only [schemasCountSpec, hc]
          simpa [pyLen] using hSLen
      | some c =>
          rw [hc] at hComps
          simp only [Option.getD_some] at hComps
          subst hComps
          cases c with
          | dict comps =>
              simp only [pyGetD, Option.some.injEq] at hSchemas
              subst hSchemas
              simp [schemasCountSpec, hc, hSLen]
          | none => simp [pyGetD] at hSchemas
          | bool b => simp [pyGetD] at hSchemas
          | int n => simp [pyGetD] at hSchemas
          | str s2 => simp [pyGetD] at hSchemas
          | list l => simp [pyGetD] at hSchemas
  · rintro ⟨xs, oa, info, paths, ts, hv, hOv, hoa3, hInfo, hTitle, hVersion,
      hPaths, hp, hs, hTags, hAll⟩
    subst hv hp
    obtain ⟨tv, htv⟩ := Option.isSome_iff_exists.mp hTitle
    obtain ⟨vv, hvv⟩ := Option.isSome_iff_exists.mp hVersion
    unfold validateBody
    cases hc : pyLookup xs "components" with
    | none =>
        simp only [schemasCountSpec, hc, Option.some.injEq] at hs
        subst hs
        simp [pyContains, any_key_eq_isSome, hOv, hInfo, hPaths, pySubscript,
          pyGetD, pyStartsPy, hoa3, pyLen, pyLookup, htv, hvv, hc, pathsTags,
          hTags, hAll]
    | some c =>
        cases c with
        | dict comps =>
            simp only [schemasCountSpec, hc] at hs
            cases hval : (pyLookup comps "schemas").getD (PyVal.dict []) <;>
              simp_all [pyContains, any_key_eq_isSome, hOv, hInfo, hPaths,
                pySubscript, pyGetD, pyStartsPy, hoa3, pyLen, pyLookup, htv, hvv,
                hc, pathsTags, hTags, hAll]
        | none => simp [schemasCountSpec, hc] at hs
        | bool b => simp [schemasCountSpec, hc] at hs
        | int n => simp [schemasCountSpec, hc] at hs
        | str s2 => simp [schemasCountSpec, hc] at hs
        | list l => simp [schemasCountSpec, hc] at hs

theorem validate_parsed_true_iff (doc : PyVal) :
    validate_openapi_spec (.parsed doc) = true ↔
      ∃ p s, validateBody doc = some (.accepted p s) := by
  show (match validateBody doc with
        | some (.accepted _ _) => true
        | some .rejected => false
        | Option.none => false) = true ↔ _
  cases h : validateBody doc with
  | none => simp
  | some o => cases o <;> simp

theorem opTagElems_of_ok (op : PyVal) (h : opTagsOk op = true) :
    ∃ es, opTagElems op = some es ∧ es.all isStrVal = true := by
  cases op with
  | dict fields =>
      simp only [opTagsOk] at h
      cases htv : pyLookup fields "tags" with
      | none => exact ⟨[], by simp [opTagElems, htv], rfl⟩
      | some tv =>
          simp only [htv] at h
          cases hue : pyUpdateElems tv with
          | none => rw [hue] at h; exact absurd h (by simp)
          | some es => rw [hue] at h; exact ⟨es, by simp [opTagElems, htv, hue], h⟩
  | none => exact ⟨[], rfl, rfl⟩
  | bool b => exact ⟨[], rfl, rfl⟩
  | int n => exact ⟨[], rfl, rfl⟩
  | str s => exact ⟨[], rfl, rfl⟩
  | list xs => exact ⟨[], rfl, rfl⟩

theorem opsTagsList_of_ok (ops : List (String × PyVal))
    (h : (ops.all fun o => opTagsOk o.2) = true) :
    ∃ es, opsTagsList ops = some es ∧ es.all isStrVal = true := by
  induction ops with
  | nil => exact ⟨[], rfl, rfl⟩
  | cons hd tl ih =>
      simp only [List.all_cons, Bool.and_eq_true] at h
      obtain ⟨es1, he1, ha1⟩ := opTagElems_of_ok hd.2 h.1
      obtain ⟨es2, he2, ha2⟩ := ih h.2
      refine ⟨es1 ++ es2, ?_, ?_⟩
      · cases hd
        simp only [opsTagsList]
        rw [he1, he2]
      · simp_all [List.all_append]

theorem pathObjTags_of_ok (po : PyVal) (h : pathItemOk po = true) :
    ∃ es, pathObjTags po = some es ∧ es.all isStrVal = true := by
  cases po with
  | dict ops =>
      obtain ⟨es, he, ha⟩ := opsTagsList_of_ok ops (by simpa [pathItemOk] using h)
      exact ⟨es, by simpa [pathObjTags] using he, ha⟩
  | none => simp [pathItemOk] at h
  | bool b => simp [pathItemOk] at h
  | int n => simp [pathItemOk] at h
  | str s => simp [pathItemOk] at h
  | list xs => simp [pathItemOk] at h

theorem pathsTagsList_of_ok (paths : List (String × PyVal))
    (h : pathsOk paths = true) :
    ∃ ts, pathsTagsList paths = some ts ∧ ts.all isStrVal = true := by
  induction paths with
  | nil => exact ⟨[], rfl, rfl⟩
  | cons hd tl ih =>
      simp only [pathsOk, List.all_cons, Bool.and_eq_true] at h
      obtain ⟨es1, he1, ha1⟩ := pathObjTags_of_ok hd.2 h.1
      obtain ⟨es2, he2, ha2⟩ := ih (by simpa [pathsOk] using h.2)
      refine ⟨es1 ++ es2, ?_, ?_⟩
      · cases hd
        simp only [pathsTagsList]
        rw [he1, he2]
      · simp_all [List.all_append]

/-! ## Lemmas about dict insertion and the required lists -/

theorem mem_dictInsert {α : Type} (xs : List (String × α)) (k : String) (v : α)
    (kv : String × α) (h : kv ∈ dictInsert xs k v) : kv ∈ xs ∨ kv = (k, v) := by
  induction xs with
  | nil => simpa [dictInsert] using h
  | cons hd tl ih =>
      obtain ⟨k2, v2⟩ := hd
      simp only [dictInsert] at h
      by_cases hk : (k2 == k) = true
      · rw [if_pos hk] at h
        rcases List.mem_cons.mp h with h1 | h1
        · right
          rw [h1]
          simp [eq_of_beq hk]
        · exact Or.inl (List.mem_cons_of_mem _ h1)
      · rw [if_neg hk] at h
        rcases List.mem_cons.mp h with h1 | h1
        · exact Or.inl (h1 ▸ List.mem_cons_self _ _)
        · rcases ih h1 with h2 | h2
          · exact Or.inl (List.mem_cons_of_mem _ h2)
          · exact Or.inr h2

theorem foldl_required_eq {β : Type} (nameOf : β → String) (reqOf : β → Bool)
    (props : List β) (acc : List String) :
    props.foldl (fun acc prop => if reqOf prop then acc ++ [nameOf prop] else acc) acc
      = acc ++ ((props.filter reqOf).map nameOf) := by
  induction props generalizing acc with
  | nil => simp
  | cons p tl ih =>
      simp only [List.foldl_cons, List.filter_cons]
      by_cases h : reqOf p = true
      · simp [h, ih]
      · simp [h, ih]

theorem scrapeRequiredProps_eq (props : List ScrapeGen.PropertyInfo) :
    ScrapeGen.requiredProps props
      = (props.filter fun p => p.required).map fun p => p.name := by
  simpa using foldl_required_eq (fun p : ScrapeGen.PropertyInfo => p.name)
    (fun p => p.required) props []

theorem any_map_general {α β : Type} (f : α → β) (l : List α) (pred : β → Bool) :
    (l.map f).any pred = l.any fun a => pred (f a) := by
  induction l <;> simp_all

theorem scrapeRequired_generic (entity : ScrapeGen.EntityInfo)
    (hnd : (entity.properties.map fun p => p.name).Nodup) :
    scrapeRequiredOk entity = true := by
  have h1 : (("type" : String) == "required") = false := rfl
  have h2 : (("description" : String) == "required") = false := rfl
  have h3 : (("properties" : String) == "required") = false := rfl
  have h4 : (("required" : String) == "required") = true := rfl
  unfold scrapeRequiredOk ScrapeGen.entitySchema
  simp only []
  by_cases hreq : (ScrapeGen.requiredProps entity.properties).isEmpty = true
  · rw [if_pos hreq]
    simp only [pyLookup, h1, h2, h3, Bool.false_eq_true, if_false]
    rw [scrapeRequiredProps_eq] at hreq
    simp only [List.isEmpty_iff, List.map_eq_nil_iff, List.filter_eq_nil_iff] at hreq
    simp only [List.all_eq_true]
    intro p hp
    simpa using hreq p hp
  · rw [if_neg hreq]
    simp only [List.cons_append, List.nil_append, pyLookup, h1, h2, h3, h4,
      Bool.false_eq_true, if_false, if_true]
    rw [Bool.and_eq_true]
    refine ⟨?_, ?_⟩
    · simp only [List.all_eq_true]
      intro p hp
      rw [any_map_general, beq_iff_eq]
      simp only []
      rw [scrapeRequiredProps_eq, any_map_general]
      by_cases hr : p.required = true
      · rw [hr, List.any_eq_true]
        exact ⟨p, List.mem_filter.mpr ⟨hp, hr⟩, by simp⟩
      · rw [Bool.not_eq_true] at hr
        rw [hr]
        rw [← Bool.not_eq_true, List.any_eq_true]
        rintro ⟨q, hqf, hqn⟩
        obtain ⟨hqmem, hqr⟩ := List.mem_filter.mp hqf
        have hq : q = p :=
          List.inj_on_of_nodup_map hnd hqmem hp (by simpa using hqn)
        rw [hq] at hqr
        simp [hr] at hqr
    · rw [List.any_eq_true]
      rw [scrapeRequiredProps_eq, List.isEmpty_iff, List.map_eq_nil_iff] at hreq
      obtain ⟨q, hq⟩ := List.exists_mem_of_ne_nil _ hreq
      obtain ⟨hqmem, hqr⟩ := List.mem_filter.mp hq
      exact ⟨q, hqmem, hqr⟩


theorem entitiesLoop_from_parse (net : String → ScrapeGen.FetchOutcome)
    (decode : PyVal → Option String) (loadYaml : String → Option PyVal)
    (attrMatches : String → List (String × String × String))
    (items : List PyVal) :
    ∀ (table out : List (String × ScrapeGen.EntityInfo)),
      ScrapeGen.entitiesLoop net decode loadYaml attrMatches items table = some out →
      ∀ kv ∈ out, kv ∈ table ∨
        ∃ fname, ScrapeGen.parse_entity net decode loadYaml attrMatches fname
            = some (some kv.2) := by
  induction items with
  | nil =>
      intro table out h kv hkv
      simp only [ScrapeGen.entitiesLoop, Option.some.injEq] at h
      exact Or.inl (h ▸ hkv)
  | cons entity rest ih =>
      intro table out h kv hkv
      simp only [ScrapeGen.entitiesLoop] at h
      cases h1 : pySubscript entity "type" with
      | none => simp [h1] at h
      | some tv =>
          simp only [h1] at h
          cases tv with
          | none => simp at h; exact ih table out h kv hkv
          | bool b => simp at h; exact ih table out h kv hkv
          | int n => simp at h; exact ih table out h kv hkv
          | list l => simp at h; exact ih table out h kv hkv
          | dict d => simp at h; exact ih table out h kv hkv
          | str s =>
            by_cases h2 : (s == "file") = true
            · rw [if_pos h2] at h
              cases h3 : pySubscript entity "name" with
              | none => simp [h3] at h
              | some nv =>
                  cases nv with
                  | str nm =>
                      simp only [h3] at h
                      by_cases h4 : strEnds nm ".md" = true
                      · rw [if_pos h4] at h
                        cases h5 : ScrapeGen.parse_entity net decode loadYaml attrMatches nm with
                        | none => simp [h5] at h
                        | some r =>
                            cases r with
                            | none =>
                                simp only [h5] at h
                                exact ih table out h kv hkv
                            | some parsed =>
                                simp only [h5] at h
                                rcases ih _ out h kv hkv with hin | hex
                                · rcases mem_dictInsert _ _ _ _ hin with hin2 | heq
                                  · exact Or.inl hin2
                                  · exact Or.inr ⟨nm, by rw [heq]; simpa using h5⟩
                                · exact Or.inr hex
                      · rw [if_neg h4] at h
                        exact ih table out h kv hkv
                  | none => simp [h3] at h
                  | bool b => simp [h3] at h
                  | int n => simp [h3] at h
                  | list l => simp [h3] at h
                  | dict d => simp [h3] at h
            · rw [if_neg h2] at h
              exact ih table out h kv hkv

theorem methodFilesLoop_from_parse (net : String → ScrapeGen.FetchOutcome)
    (decode : PyVal → Option String) (loadYaml : String → Option PyVal)
    (paramMatches : String → List (String × String × String × String))
    (dirName : String) (files : List PyVal) :
    ∀ (endpoints out : List ScrapeGen.EndpointInfo),
      ScrapeGen.methodFilesLoop net decode loadYaml paramMatches dirName files endpoints
          = some out →
      ∀ e ∈ out, e ∈ endpoints ∨
        ∃ mp hm, ScrapeGen.parse_method_file net decode loadYaml paramMatches mp hm
            = some (some e) := by
  induction files with
  | nil =>
      intro endpoints out h e he
      simp only [ScrapeGen.methodFilesLoop, Option.some.injEq] at h
      exact Or.inl (h ▸ he)
  | cons method_file rest ih =>
      intro endpoints out h e he
      simp only [ScrapeGen.methodFilesLoop] at h
      cases h1 : pySubscript method_file "type" with
      | none => simp [h1] at h
      | some tv =>
          simp only [h1] at h
          cases tv with
          | none => simp at h; exact ih endpoints out h e he
          | bool b => simp at h; exact ih endpoints out h e he
          | int n => simp at h; exact ih endpoints out h e he
          | list l => simp at h; exact ih endpoints out h e he
          | dict d => simp at h; exact ih endpoints out h e he
          | str s =>
            by_cases h2 : (s == "file") = true
            · rw [if_pos h2] at h
              cases h3 : pySubscript method_file "name" with
              | none => simp [h3] at h
              | some nv =>
                  cases nv with
                  | str fname =>
                      simp only [h3] at h
                      by_cases h4 : strEnds fname ".md" = true
                      · rw [if_pos h4] at h
                        by_cases h5 : (["GET", "POST", "PUT", "PATCH", "DELETE"].contains
                            (strUpper (pathStem fname))) = true
                        · rw [if_pos h5] at h
                          cases h6 : ScrapeGen.parse_method_file net decode loadYaml paramMatches
                              (ScrapeGen.METHODS_PATH ++ "/" ++ dirName ++ "/" ++ fname)
                              (pathStem fname) with
                          | none => simp [h6] at h
                          | some r =>
                              cases r with
                              | none =>
                                  simp only [h6] at h
                                  exact ih endpoints out h e he
                              | some endpoint =>
                                  simp only [h6] at h
                                  rcases ih _ out h e he with hin | hex
                                  · rcases List.mem_append.mp hin with hin2 | hin2
                                    · exact Or.inl hin2
                                    · have he2 := List.mem_singleton.mp hin2
                                      subst he2
                                      exact Or.inr ⟨ScrapeGen.METHODS_PATH ++ "/" ++ dirName
                                        ++ "/" ++ fname, pathStem fname, h6⟩
                                  · exact Or.inr hex
                        · rw [if_neg h5] at h
                          exact ih endpoints out h e he
                      · rw [if_neg h4] at h
                        exact ih endpoints out h e he
                  | none => simp [h3] at h
                  | bool b => simp [h3] at h
                  | int n => simp [h3] at h
                  | list l => simp [h3] at h
                  | dict d => simp [h3] at h
            · rw [if_neg h2] at h
              exact ih endpoints out h e he

theorem methodDirsLoop_from_parse (net : String → ScrapeGen.FetchOutcome)
    (decode : PyVal → Option String) (loadYaml : String → Option PyVal)
    (paramMatches : String → List (String × String × String × String))
    (dirs : List PyVal) :
    ∀ (endpoints out : List ScrapeGen.EndpointInfo),
      ScrapeGen.methodDirsLoop net decode loadYaml paramMatches dirs endpoints = some out →
      ∀ e ∈ out, e ∈ endpoints ∨
        ∃ mp hm, ScrapeGen.parse_method_file net decode loadYaml paramMatches mp hm
            = some (some e) := by
  induction dirs with
  | nil =>
      intro endpoints out h e he
      simp only [ScrapeGen.methodDirsLoop, Option.some.injEq] at h
      exact Or.inl (h ▸ he)
  | cons method_dir rest ih =>
      intro endpoints out h e he
      simp only [ScrapeGen.methodDirsLoop] at h
      cases h1 : pySubscript method_dir "type" with
      | none => simp [h1] at h
      | some tv =>
          simp only [h1] at h
          cases tv with
          | none => simp at h; exact ih endpoints out h e he
          | bool b => simp at h; exact ih endpoints out h e he
          | int n => simp at h; exact ih endpoints out h e he
          | list l => simp at h; exact ih endpoints out h e he
          | dict d => simp at h; exact ih endpoints out h e he
          | str s =>
            by_cases h2 : (s == "dir") = true
            · rw [if_pos h2] at h
              cases h3 : pySubscript method_dir "name" with
              | none => simp [h3] at h
              | some nv =>
                  simp only [h3] at h
                  cases h4 : pyIter (ScrapeGen.list_directory net
                      (ScrapeGen.METHODS_PATH ++ "/" ++ pyStrForm nv)) with
                  | none => simp [h4] at h
                  | some files =>
                      simp only [h4] at h
                      cases h5 : ScrapeGen.methodFilesLoop net decode loadYaml paramMatches
                          (pyStrForm nv) files endpoints with
                      | none => simp [h5] at h
                      | some endpoints2 =>
                          simp only [h5] at h
                          rcases ih endpoints2 out h e he with hin | hex
                          · rcases methodFilesLoop_from_parse net decode loadYaml paramMatches
                                (pyStrForm nv) files endpoints endpoints2 h5 e hin with hin2 | hex2
                            · exact Or.inl hin2
                            · exact Or.inr hex2
                          · exact Or.inr hex
            · rw [if_neg h2] at h
              exact ih endpoints out h e he

/-! ## Claim C1 -/

/-- C1 counterexample document: all four items of the claim are present
(an `openapi` string `3.0.3`, an `info` mapping with `title` and
`version`, a `paths` key), but the entry under `paths` is not a mapping,
so the validator's tag loop raises and the catch-all handler makes it
return `False`. -/
def c1CounterDoc : PyVal :=
  .dict [("openapi", .str "3.0.3"),
         ("info", .dict [("title", .str "Mastodon API"), ("version", .str "4.3.0")]),
         ("paths", .dict [("/api/v1/instance", .int 0)])]

/-- C1 (counterexample): a parsed document containing all four items the
claim lists — `openapi` with string form starting `3.`, `info` holding
`title` and `version`, and `paths` — on which `validate_openapi_spec`
nevertheless returns `False`, refuting the claim as stated. -/
theorem c1_counterexample :
    claimItems c1CounterDoc = true ∧
    validate_openapi_spec (.parsed c1CounterDoc) = false := ⟨rfl, rfl⟩

/-- C1 (amended): the validator returns `True` on every parsed document
that is a mapping whose `openapi` value is a string starting `3.`, whose
`info` value is a mapping containing `title` and `version`, whose `paths`
value is a mapping each of whose entries is a mapping of operations whose
`tags` values (when the operation is a mapping with a `tags` key) are
iterables of hashable elements that are all strings, and whose
`components` value, when present, is a mapping with a sized `schemas`
value; and it returns `False` on every parsed document missing any of
the claim's four items. -/
theorem c1_validator_accepts_and_rejects (v : PyVal) :
    (∀ xs oa info paths, v = .dict xs →
        pyLookup xs "openapi" = some (.str oa) → strStarts oa "3." = true →
        pyLookup xs "info" = some (.dict info) →
        (pyLookup info "title").isSome = true →
        (pyLookup info "version").isSome = true →
        pyLookup xs "paths" = some (.dict paths) → pathsOk paths = true →
        (schemasCountSpec xs).isSome = true →
        validate_openapi_spec (.parsed v) = true) ∧
    (claimItems v = false → validate_openapi_spec (.parsed v) = false) := by
  constructor
  · intro xs oa info paths hv hOv hoa3 hInfo hTitle hVersion hPaths hPok hComp
    subst hv
    rw [validate_parsed_true_iff]
    obtain ⟨ts, hTags, hAll⟩ := pathsTagsList_of_ok paths hPok
    obtain ⟨s, hs⟩ := Option.isSome_iff_exists.mp hComp
    exact ⟨paths.length, s,
      (validateBody_accepted_iff _ _ _).mpr
        ⟨xs, oa, info, paths, ts, rfl, hOv, hoa3, hInfo, hTitle, hVersion,
         hPaths, rfl, hs, hTags, hAll⟩⟩
  · intro hci
    cases hval : validate_openapi_spec (.parsed v) with
    | false => rfl
    | true =>
        obtain ⟨p, s, hacc⟩ := (validate_parsed_true_iff v).mp hval
        obtain ⟨xs, oa, info, paths, ts, hv, hOv, hoa3, hInfo, hTitle, hVersion,
          hPaths, hp, hs, hTags, hAll⟩ := (validateBody_accepted_iff v p s).mp hacc
        subst hv
        have hc : claimItems (.dict xs) = true := by
          simp [claimItems, hOv, hInfo, hPaths, hTitle, hVersion, pyStrForm, hoa3]
        rw [hc] at hci
        exact absurd hci (by simp)

/-- C1 (witness): the amended claim applied to a concrete well-shaped
document, and the rejection direction applied to a document missing the
four items. -/
theorem c1_witness :
    validate_openapi_spec (.parsed (.dict [("openapi", .str "3.0.3"),
      ("info", .dict [("title", .str "T"), ("version", .str "1")]),
      ("paths", .dict [("/a", .dict [("get", .dict [("tags", .list [.str "x"])])])])]))
      = true ∧
    validate_openapi_spec (.parsed (.dict [("info", .dict [])])) = false := by
  constructor
  · exact (c1_validator_accepts_and_rejects _).1 _ "3.0.3" _ _
      rfl rfl rfl rfl rfl rfl rfl (by decide) rfl
  · exact (c1_validator_accepts_and_rejects _).2 rfl

/-! ## Claim C2 -/

/-- C2: with the fixed hardcoded entity and endpoint tables, two runs of
the embedded `generate_openapi_spec` of the sample generator, and two runs
of the comprehensive generator's, produce equal specification objects —
the same keys, values and key insertion order (`PyVal` dicts are ordered
pair lists, so the equality covers ordering). -/
theorem c2_generation_deterministic :
    SampleGen.generate_openapi_spec SampleGen.create_sample_entities
        SampleGen.create_sample_endpoints
      = SampleGen.generate_openapi_spec SampleGen.create_sample_entities
        SampleGen.create_sample_endpoints ∧
    CompGen.generate_openapi_spec CompGen.create_comprehensive_entities
        CompGen.create_comprehensive_endpoints
      = CompGen.generate_openapi_spec CompGen.create_comprehensive_entities
        CompGen.create_comprehensive_endpoints := ⟨rfl, rfl⟩

/-! ## Claim C3 -/

/-- C3: whenever the validator accepts a parsed document, the reported
path count is the number of entries of the document's top-level `paths`
mapping, and the reported schema count is the number of entries of its
`components.schemas` mapping, `0` when `components` or `schemas` is
absent. -/
theorem c3_reported_counts (v : PyVal) (p s : Nat)
    (h : validateBody v = some (.accepted p s)) :
    (∃ xs paths, v = .dict xs ∧ pyLookup xs "paths" = some (.dict paths) ∧
        p = paths.length) ∧
    (∀ xs, v = .dict xs →
        (pyLookup xs "components" = Option.none → s = 0) ∧
        (∀ comps, pyLookup xs "components" = some (.dict comps) →
            (pyLookup comps "schemas" = Option.none → s = 0) ∧
            (∀ sch, pyLookup comps "schemas" = some (.dict sch) → s = sch.length))) := by
  obtain ⟨xs, oa, info, paths, ts, hv, hOv, hoa3, hInfo, hTitle, hVersion,
    hPaths, hp, hs, hTags, hAll⟩ := (validateBody_accepted_iff v p s).mp h
  subst hv
  refine ⟨⟨xs, paths, rfl, hPaths, hp⟩, ?_⟩
  intro xs2 hxs2
  have hxs : xs2 = xs := by injection hxs2 with h2; exact h2.symm
  subst hxs
  refine ⟨fun hcomp => ?_, fun comps hcomps => ⟨fun hsch => ?_, fun sch hsch => ?_⟩⟩
  · simp only [schemasCountSpec, hcomp, Option.some.injEq] at hs
    exact hs.symm
  · simp only [schemasCountSpec, hcomps, hsch, Option.getD_none, pyLen,
      Option.some.injEq, List.length_nil] at hs
    exact hs.symm
  · simp only [schemasCountSpec, hcomps, hsch, Option.getD_some, pyLen,
      Option.some.injEq] at hs
    exact hs.symm

/-- C3 witness document: one path, two schemas. -/
def c3Doc : PyVal :=
  .dict [("openapi", .str "3.0.3"),
         ("info", .dict [("title", .str "T"), ("version", .str "V")]),
         ("paths", .dict [("/a", .dict [])]),
         ("components", .dict [("schemas", .dict [("A", .int 0), ("B", .int 0)])])]

/-- C3 (witness): the count theorem applied to a concrete accepted
document reporting one path and two schemas. -/
theorem c3_witness :
    (∃ xs paths, c3Doc = .dict xs ∧ pyLookup xs "paths" = some (.dict paths) ∧
        1 = paths.length) ∧
    (∀ xs, c3Doc = .dict xs →
        (pyLookup xs "components" = Option.none → 2 = 0) ∧
        (∀ comps, pyLookup xs "components" = some (.dict comps) →
            (pyLookup comps "schemas" = Option.none → 2 = 0) ∧
            (∀ sch, pyLookup comps "schemas" = some (.dict sch) → 2 = sch.length))) :=
  c3_reported_counts c3Doc 1 2 rfl

/-! ## Claim C4 -/

/-- C4: every specification object returned by any of the three embedded
`generate_openapi_spec` functions, whatever the entity and endpoint
tables, has `openapi` equal to `3.0.3`, contains the top-level keys
`openapi`, `info`, `servers`, `paths` and `components`, and its
`components` holds both `schemas` and `securitySchemes`. -/
theorem c4_top_level_shape
    (e1 : List (String × SampleGen.EntityInfo)) (p1 : List SampleGen.EndpointInfo)
    (e2 : List (String × CompGen.EntityInfo)) (p2 : List CompGen.EndpointInfo)
    (e3 : List (String × ScrapeGen.EntityInfo)) (p3 : List ScrapeGen.EndpointInfo) :
    topLevelOk (SampleGen.generate_openapi_spec e1 p1) = true ∧
    topLevelOk (CompGen.generate_openapi_spec e2 p2) = true ∧
    topLevelOk (ScrapeGen.generate_openapi_spec e3 p3) = true := ⟨rfl, rfl, rfl⟩

/-! ## Claim C5 -/

/-- C5: in the sample and comprehensive generators' fixed entity tables, a
property's name appears in the emitted schema's `required` list exactly
when the property is flagged required, and the `required` key is present
exactly when some property is flagged; for the scraping generator, the
same holds for every entity whose property names are distinct. -/
theorem c5_required_lists :
    (SampleGen.create_sample_entities.all fun e => sampleRequiredOk e.2) = true ∧
    (CompGen.create_comprehensive_entities.all fun e => compRequiredOk e.2) = true ∧
    (∀ entity : ScrapeGen.EntityInfo,
        (entity.properties.map fun p => p.name).Nodup →
        scrapeRequiredOk entity = true) :=
  ⟨by decide, by decide, fun entity hnd => scrapeRequired_generic entity hnd⟩

/-- C5 witness entity for the scraping-generator part. -/
def c5WitnessEntity : ScrapeGen.EntityInfo :=
  { name := "X", description := "d",
    properties := [{ name := "id", type := "string", description := "d" }] }

/-- C5 (witness): the scraping-generator part applied to a concrete
entity. -/
theorem c5_witness : scrapeRequiredOk c5WitnessEntity = true :=
  c5_required_lists.2.2 _ (by decide)

/-! ## Claim C6 -/

/-- C6: failures are contained at their point of use: a failing fetch
makes `fetch_file_content` return `None` and `list_directory` return the
empty list, a missing file or a parse failure makes the validator report
the boolean `False`, and the two parsing loops only ever add entries that
come from a successful (non-`None`) parse. -/
theorem c6_error_containment
    (net : String → ScrapeGen.FetchOutcome) (decode : PyVal → Option String)
    (loadYaml : String → Option PyVal)
    (attrMatches : String → List (String × String × String))
    (paramMatches : String → List (String × String × String × String))
    (path : String) :
    (net (ScrapeGen.MASTODON_DOCS_BASE_URL ++ "/" ++ path) = .exc →
        ScrapeGen.fetch_file_content net decode path = Option.none) ∧
    (net (ScrapeGen.MASTODON_DOCS_BASE_URL ++ "/" ++ path) = .exc →
        ScrapeGen.list_directory net path = .list []) ∧
    (validate_openapi_spec .missing = false ∧
     validate_openapi_spec .parseError = false) ∧
    (∀ table, ScrapeGen.parse_all_entities net decode loadYaml attrMatches = some table →
        ∀ kv ∈ table, ∃ fname,
          ScrapeGen.parse_entity net decode loadYaml attrMatches fname = some (some kv.2)) ∧
    (∀ eps, ScrapeGen.parse_all_methods net decode loadYaml paramMatches = some eps →
        ∀ e ∈ eps, ∃ mp hm,
          ScrapeGen.parse_method_file net decode loadYaml paramMatches mp hm
            = some (some e)) := by
  refine ⟨fun h => ?_, fun h => ?_, ⟨rfl, rfl⟩, fun table h kv hkv => ?_,
    fun eps h e he => ?_⟩
  · unfold ScrapeGen.fetch_file_content
    rw [h]
  · unfold ScrapeGen.list_directory
    rw [h]
  · unfold ScrapeGen.parse_all_entities at h
    cases h0 : pyIter (ScrapeGen.list_directory net ScrapeGen.ENTITIES_PATH) with
    | none => simp [h0] at h
    | some items =>
        simp only [h0] at h
        rcases entitiesLoop_from_parse net decode loadYaml attrMatches items [] table
            h kv hkv with hin | hex
        · exact absurd hin (List.not_mem_nil kv)
        · exact hex
  · unfold ScrapeGen.parse_all_methods at h
    cases h0 : pyIter (ScrapeGen.list_directory net ScrapeGen.METHODS_PATH) with
    | none => simp [h0] at h
    | some dirs =>
        simp only [h0] at h
        rcases methodDirsLoop_from_parse net decode loadYaml paramMatches dirs [] eps
            h e he with hin | hex
        · exact absurd hin (List.not_mem_nil e)
        · exact hex

/-- A network on which every fetch raises. -/
def excNet : String → ScrapeGen.FetchOutcome := fun _ => .exc

/-- C6 (witness): the containment theorem applied to the all-failing
network. -/
theorem c6_witness :
    ScrapeGen.fetch_file_content excNet (fun _ => Option.none)
        "content/en/entities/Account.md" = Option.none ∧
    ScrapeGen.list_directory excNet "content/en/methods" = .list [] := by
  refine ⟨(c6_error_containment excNet (fun _ => Option.none) (fun _ => Option.none)
      (fun _ => []) (fun _ => []) "content/en/entities/Account.md").1 rfl, ?_⟩
  exact (c6_error_containment excNet (fun _ => Option.none) (fun _ => Option.none)
      (fun _ => []) (fun _ => []) "content/en/methods").2.1 rfl

/-! ## Claim C7 -/

/-- C7: `fetch_file_content` returns decoded text only when the fetched
response is a mapping declaring `encoding == "base64"` (the body is then
passed through the base64 + UTF-8 decoding); for every JSON response with
any other or missing encoding — or of non-mapping shape — it returns
`None`. -/
theorem c7_fetch_base64_only
    (net : String → ScrapeGen.FetchOutcome) (decode : PyVal → Option String)
    (path : String) :
    (∀ s, ScrapeGen.fetch_file_content net decode path = some s →
        ∃ fields, net (ScrapeGen.MASTODON_DOCS_BASE_URL ++ "/" ++ path)
              = .json (.dict fields) ∧
          pyLookup fields "encoding" = some (.str "base64") ∧
          ∃ c, pyLookup fields "content" = some c ∧ decode c = some s) ∧
    (∀ data, net (ScrapeGen.MASTODON_DOCS_BASE_URL ++ "/" ++ path) = .json data →
        (∀ fields, data = .dict fields →
            pyLookup fields "encoding" ≠ some (.str "base64")) →
        ScrapeGen.fetch_file_content net decode path = Option.none) := by
  constructor
  · intro s h
    unfold ScrapeGen.fetch_file_content at h
    cases hnet : net (ScrapeGen.MASTODON_DOCS_BASE_URL ++ "/" ++ path) with
    | exc => simp [hnet] at h
    | json data =>
        simp only [hnet] at h
        cases data with
        | dict fields =>
            cases henc : pyLookup fields "encoding" with
            | none => simp [henc] at h
            | some ev =>
                cases ev with
                | str e =>
                    simp only [henc] at h
                    by_cases he : (e == "base64") = true
                    · rw [if_pos he] at h
                      cases hc : pyLookup fields "content" with
                      | none => simp [hc] at h
                      | some c =>
                          simp only [hc] at h
                          refine ⟨fields, rfl, ?_, c, hc, h⟩
                          rw [henc, eq_of_beq he]
                    · rw [if_neg he] at h
                      exact absurd h (by simp)
                | none => simp [henc] at h
                | bool b => simp [henc] at h
                | int n => simp [henc] at h
                | list l => simp [henc] at h
                | dict d => simp [henc] at h
        | none => simp at h
        | bool b => simp at h
        | int n => simp at h
        | str s2 => simp at h
        | list l => simp at h
  · intro data hnet hne
    unfold ScrapeGen.fetch_file_content
    simp only [hnet]
    cases data with
    | dict fields =>
        have hd := hne fields rfl
        cases henc : pyLookup fields "encoding" with
        | none => simp [henc]
        | some ev =>
            cases ev with
            | str e =>
                by_cases he : (e == "base64") = true
                · exact absurd (by rw [henc, eq_of_beq he]) hd
                · simp [henc, he]
            | none => simp [henc]
            | bool b => simp [henc]
            | int n => simp [henc]
            | list l => simp [henc]
            | dict d => simp [henc]
    | none => rfl
    | bool b => rfl
    | int n => rfl
    | str s2 => rfl
    | list l => rfl

/-- A network answering every fetch with a non-base64 content listing. -/
def gzipNet : String → ScrapeGen.FetchOutcome :=
  fun _ => .json (.dict [("encoding", .str "gzip")])

/-- C7 (witness): the theorem applied to the non-base64 network. -/
theorem c7_witness :
    ScrapeGen.fetch_file_content gzipNet (fun _ => some "") "x" = Option.none := by
  refine (c7_fetch_base64_only gzipNet (fun _ => some "") "x").2 _ rfl ?_
  intro fields hf
  cases hf
  intro hcontra
  injection hcontra with h1
  injection h1 with h2
  exact absurd h2 (by decide)

/-! ## Claim C8 -/

/-- C8: `validate_openapi_spec` is total over file contents: every
exception in the body is caught by the trailing handlers and turned into
the boolean `False`, as evaluated on a `None` top level, a list top
level, a non-string `openapi` value, a non-mapping entry under `paths`,
and the pre-parse failure cases. -/
theorem c8_catch_all (v : PyVal) :
    (validateBody v = Option.none → validate_openapi_spec (.parsed v) = false) ∧
    validate_openapi_spec (.parsed .none) = false ∧
    validate_openapi_spec (.parsed (.list [.str "openapi", .str "info", .str "paths"]))
      = false ∧
    validate_openapi_spec (.parsed (.dict [("openapi", .int 3),
      ("info", .dict [("title", .str "T"), ("version", .str "V")]),
      ("paths", .dict [])])) = false ∧
    validate_openapi_spec (.parsed (.dict [("openapi", .str "3.0.3"),
      ("info", .dict [("title", .str "T"), ("version", .str "V")]),
      ("paths", .dict [("/x", .str "s")])])) = false ∧
    validate_openapi_spec .missing = false ∧ validate_openapi_spec .badFormat = false ∧
    validate_openapi_spec .parseError = false := by
  refine ⟨fun h => ?_, rfl, rfl, rfl, rfl, rfl, rfl, rfl⟩
  show (match validateBody v with
        | some (.accepted _ _) => true
        | some .rejected => false
        | Option.none => false) = false
  rw [h]

/-- C8 (witness): the catch-all direction applied to the `None` top-level
document, whose membership test raises. -/
theorem c8_witness : validate_openapi_spec (.parsed .none) = false :=
  (c8_catch_all .none).1 rfl

/-! ## Claim C9 -/

/-- C9: in the sample generator, an emitted operation carries `security`
exactly when (its path does not start with `/oauth` and its method is not
`get`) or its path contains `timeline`; in particular `POST /oauth/token`
has no `security`, the timeline GETs have it, and every other GET
operation of the emitted specification has none. -/
theorem c9_sample_security :
    (SampleGen.create_sample_endpoints.all fun ep =>
        hasKey (SampleGen.operationObj ep) "security"
          == ((!strStarts ep.path "/oauth" && ep.method != "get")
              || strContains ep.path "timeline")) = true ∧
    opHasSecurity SampleGen.sampleSpec "/oauth/token" "post" = some false ∧
    opHasSecurity SampleGen.sampleSpec "/api/v1/timelines/home" "get" = some true ∧
    opHasSecurity SampleGen.sampleSpec "/api/v1/timelines/public" "get" = some true ∧
    getOpsSecurityOk SampleGen.sampleSpec = true :=
  ⟨by decide, rfl, rfl, rfl, by decide⟩

/-! ## Claim C10 -/

/-- C10: in the comprehensive generator's `entities_data` loop, the
nullable flag is taken from the fourth tuple element exactly when that
element is a boolean (and is `False` otherwise), `required` is always the
negation of `nullable`; hence a fourth element equal to the boolean
`False` yields `nullable = False` and `required = True`, and a property
whose fourth element is a format string is never nullable, always
required, and carries that format. -/
theorem c10_entities_data_nullable (pd : CompGen.PropData) :
    ((CompGen.propFromData pd).required = !(CompGen.propFromData pd).nullable) ∧
    (∀ b, pd.2.2.2.get? 0 = some (.bool b) → (CompGen.propFromData pd).nullable = b) ∧
    (pd.2.2.2.get? 0 = some (.bool false) →
        (CompGen.propFromData pd).nullable = false ∧
        (CompGen.propFromData pd).required = true) ∧
    (∀ fmt, pd.2.2.2.get? 0 = some (.str fmt) →
        (CompGen.propFromData pd).nullable = false ∧
        (CompGen.propFromData pd).required = true ∧
        (CompGen.propFromData pd).format = some fmt) ∧
    ((∀ b, pd.2.2.2.get? 0 ≠ some (.bool b)) →
        (CompGen.propFromData pd).nullable = false ∧
        (CompGen.propFromData pd).required = true) := by
  obtain ⟨n, t, d, rest⟩ := pd
  refine ⟨?_, fun b hb => ?_, fun hb => ?_, fun fmt hf => ?_, fun hnb => ?_⟩
  · rfl
  · have hb2 : rest[0]? = some (PyVal.bool b) := by simpa using hb
    simp [CompGen.propFromData, hb2]
  · have hb2 : rest[0]? = some (PyVal.bool false) := by simpa using hb
    simp [CompGen.propFromData, hb2]
  · have hf2 : rest[0]? = some (PyVal.str fmt) := by simpa using hf
    simp [CompGen.propFromData, hf2]
  · cases h : rest[0]? with
    | none => simp [CompGen.propFromData, h]
    | some v =>
        cases v with
        | bool b => exact absurd (by simpa using h) (hnb b)
        | none => simp [CompGen.propFromData, h]
        | int m => simp [CompGen.propFromData, h]
        | str s2 => simp [CompGen.propFromData, h]
        | list l => simp [CompGen.propFromData, h]
        | dict dd => simp [CompGen.propFromData, h]

/-- C10 (witness): the tuple theorem applied to two concrete rows of
`entities_data` — a format-string fourth element and a boolean one. -/
theorem c10_witness :
    (CompGen.propFromData ("url", "string", "A link to the custom emoji",
        [.str "uri"])).required = true ∧
    (CompGen.propFromData ("url", "string", "A link to the custom emoji",
        [.str "uri"])).format = some "uri" ∧
    (CompGen.propFromData ("category", "string",
        "Used for sorting custom emoji in the picker", [.bool true])).nullable = true := by
  have h1 := c10_entities_data_nullable
    ("url", "string", "A link to the custom emoji", [.str "uri"])
  have h2 := c10_entities_data_nullable
    ("category", "string", "Used for sorting custom emoji in the picker", [.bool true])
  exact ⟨(h1.2.2.2.1 "uri" rfl).2.1, (h1.2.2.2.1 "uri" rfl).2.2, h2.2.1 true rfl⟩

end MastodonOpenapi
